import Mathlib

/-!
Verification development for the Comet language core (lexer, Pratt parser,
tree-walking evaluator).  The definitions below are a shallow embedding of
the Go sources: the evaluator and scope model follow
`pkg/eval` (`Eval`, `Scope`, `applyOp`, `applyStrOp`, `applyBoolOp`,
`evalForStatement`, `callOnObject`, ...), the runtime value model follows
the `std` package (`CometObject` variants, `ToString`, `CreateError`,
struct/instance records), and `NewLexer` follows `pkg/lexer`.

Modelling conventions:
* Go `int64` values are embedded as unbounded `Int` (no claim under test
  exercises two's-complement wrap-around).
* Go maps are embedded as association lists with update-in-place semantics.
* Go pointers to mutable `CometInstance` records are embedded as indices
  into an explicit heap carried in the evaluator state.
* Go panics (division by zero, failed type assertions, out-of-range
  indexing, explicit `panic(...)` calls, `strings.Repeat` with a negative
  count) are embedded as the `panicked` outcome, distinct from Comet
  `Error` values which are ordinary results.
* Recursion through `Eval` is bounded by fuel; running out of fuel is the
  `timeout` outcome.  Plain Go loops (over statement lists, argument lists
  and range iterations) do not consume fuel, matching the source where only
  the recursive tree walk can diverge.
-/

namespace Comet

/-- Token kinds, `pkg/lexer/token.go`: `TokenType` is a string alias. -/
abbrev TokenType := String

def Plus : TokenType := "+"

def Minus : TokenType := "-"

def Mul : TokenType := "*"

def Div : TokenType := "/"

def Bang : TokenType := "!"

def GT : TokenType := ">"

def GTE : TokenType := ">="

def LT : TokenType := "<"

def LTE : TokenType := "<="

def EQ : TokenType := "=="

def NEQ : TokenType := "!="

def Dot : TokenType := "."

def DotDot : TokenType := ".."

/-- A token as used by the evaluator: kind and literal text.  The source
also records line/column metadata, which the evaluator never reads. -/
structure Token where
  tokenType : TokenType
  literal : String
  deriving DecidableEq, Repr

/-- Modelled from the spec: the AST node variants of the `pkg/parser`
package (the file declaring the node structs is not among the provided
sources; shapes follow spec section 3 and the fields used by
`pkg/parser/parser.go` and `pkg/eval`).  Expressions and statements share
one `Node` type, mirroring the Go `Node` interface that `Eval` dispatches
on.  `IfStatement` carries its then/else blocks as `BlockStatement` nodes;
struct methods are (name, parameters, block) triples of
`FunctionStatement` data. -/
inductive Node where
  | RootNode (statements : List Node)
  | NumberLiteral (actualValue : Int)
  | BooleanLiteral (actualValue : Bool)
  | StringLiteral (value : String)
  | ArrayLiteral (elements : List Node)
  | IdentifierExpression (name : String)
  | PrefixExpression (op : Token) (right : Node)
  | BinaryExpression (op : Token) (left right : Node)
  | ParenthesisedExpression (expression : Node)
  | CallExpression (name : String) (arguments : List Node)
  | IndexAccess (identifier index : Node)
  | AssignExpression (varName : String) (value : Node)
  | NewCallExpr (typeName : String) (args : List Node)
  | DeclarationStatement (identifier : String) (expression : Node)
  | ReturnStatement (expression : Node)
  | BlockStatement (statements : List Node)
  | IfStatement (test thenBlock elseBlock : Node)
  | FunctionStatement (name : String) (parameters : List String) (block : Node)
  | ForStatement (keyName valueName : String) (rangeExpr body : Node)
  | StructDeclarationStatement (name : String)
      (methods : List (String × List String × Node))

/-- The data of a `std.CometFunc`: name, parameter names, body block. -/
structure FuncData where
  name : String
  params : List String
  body : Node

/-- `std.CometStruct`: a struct type descriptor (name and method map). -/
structure CometStruct where
  name : String
  methods : List (String × FuncData)

/-- Runtime values, `std` package.  `CometInstance` is a reference into the
evaluator's instance heap (Go shares instances by pointer). -/
inductive CometObject where
  | CometInt (value : Int)
  | CometBool (value : Bool)
  | CometStr (value : String) (size : Int)
  | CometArray (length : Int) (values : List CometObject)
  | CometError (message : String)
  | NopObject
  | CometReturnWrapper (value : CometObject)
  | CometFunc (name : String) (params : List String) (body : Node)
  | CometRange (rangeFrom rangeTo : Int)
  | CometInstance (ref : Nat)

def TrueObject : CometObject := .CometBool true

def FalseObject : CometObject := .CometBool false

def NopInstance : CometObject := .NopObject

/-- `std.CometType` is a string alias. -/
abbrev CometType := String

def IntType : CometType := "INTEGER"

def BoolType : CometType := "BOOLEAN"

def StrType : CometType := "STR"

def ArrayType : CometType := "ARRAY"

def FuncType : CometType := "FUNCTION"

def ErrorType : CometType := "ERROR"

def RangeType : CometType := "RANGE"

def ObjType : CometType := "OBJECT"

def ReturnWrapperType : CometType := "ReturnWrapper"

def NopType : CometType := "NOP"

/-- The `Type()` method of each `std` value variant. -/
def typeOf : CometObject → CometType
  | .CometInt _ => IntType
  | .CometBool _ => BoolType
  | .CometStr _ _ => StrType
  | .CometArray _ _ => ArrayType
  | .CometError _ => ErrorType
  | .NopObject => NopType
  | .CometReturnWrapper _ => ReturnWrapperType
  | .CometFunc _ _ _ => FuncType
  | .CometRange _ _ => RangeType
  | .CometInstance _ => ObjType

/-- `std.CreateError` (the `Sprintf` formatting is performed at each call
site in this embedding). -/
def CreateError (message : String) : CometObject := .CometError message

/-- One scope frame: the `Variables` map of a Go `Scope` node, embedded as
an association list. -/
abbrev Frame := List (String × CometObject)

/-- Map read on one frame. -/
def frameLookup : Frame → String → Option CometObject
  | [], _ => none
  | (k, v) :: rest, x => if k = x then some v else frameLookup rest x

/-- Map assignment on one frame: overwrite the existing binding in place,
or append a new one. -/
def frameUpdate : Frame → String → CometObject → Frame
  | [], x, v => [(x, v)]
  | (k, w) :: rest, x, v =>
    if k = x then (k, v) :: rest else (k, w) :: frameUpdate rest x v

/-- Map deletion on one frame (`delete(sc.Variables, name)`). -/
def frameErase (f : Frame) (x : String) : Frame :=
  f.filter (fun kv => kv.1 ≠ x)

/-- A scope chain: the current frame first, the global frame last.  The Go
`Scope` is a linked record of a variable map and a parent pointer; the
evaluator's current scope is one node of that chain. -/
abbrev ScopeChain := List Frame

/-- `Scope.Lookup`: nearest binding, walking the parent chain. -/
def ScopeLookup : ScopeChain → String → Option CometObject
  | [], _ => none
  | f :: parent, x =>
    match frameLookup f x with
    | some v => some v
    | none => ScopeLookup parent x

/-- `Scope.Store`: overwrite in the nearest frame that already binds the
name; returns whether a frame was found (Go returns this flag as a bool).
Frames without the binding are left untouched. -/
def ScopeStore : ScopeChain → String → CometObject → ScopeChain × Bool
  | [], _, _ => ([], false)
  | f :: parent, x, v =>
    if (frameLookup f x).isSome then
      (frameUpdate f x v :: parent, true)
    else
      let res := ScopeStore parent x v
      (f :: res.1, res.2)

/-- `Scope.Declare`: unconditionally bind in the current frame. -/
def ScopeDeclare : ScopeChain → String → CometObject → ScopeChain
  | [], x, v => [[(x, v)]]
  | f :: parent, x, v => frameUpdate f x v :: parent

/-- `Scope.Clear`: remove a binding from the current frame only. -/
def ScopeClear : ScopeChain → String → ScopeChain
  | [], _ => []
  | f :: parent, x => frameErase f x :: parent

/-- One heap cell: the mutable state of a `std.CometInstance` (its struct
descriptor pointer and its dynamic field map). -/
structure InstanceData where
  strct : CometStruct
  fields : List (String × CometObject)

/-- The mutable state of one `Evaluator`: current scope chain, registered
struct types, registered builtin names, and the instance heap (modelling
the Go heap the instance pointers live in). -/
structure EvalState where
  scope : ScopeChain
  types : List (String × CometStruct)
  builtins : List String
  heap : List InstanceData

/-- `eval.New()`: fresh evaluator with one empty global scope and the two
`std.Builtins` entries registered. -/
def NewEvaluator : EvalState :=
  { scope := [[]], types := [], builtins := ["printf", "println"], heap := [] }

/-- Outcome of running a piece of the evaluator: a value of type `α` plus
the updated state, a Go runtime panic, or fuel exhaustion. -/
inductive ResOf (α : Type) where
  | ok (val : α) (st : EvalState)
  | panicked (msg : String)
  | timeout

/-- Outcome of one `Eval` call (`Eval` always returns a `CometObject`). -/
abbrev Res := ResOf CometObject

/-- `unwrap`: strip one `ReturnWrapper` layer, if present. -/
def unwrap (result : CometObject) : CometObject :=
  match result with
  | .CometReturnWrapper v => v
  | _ => result

/-- `isError`: type-tag test used for short-circuiting. -/
def isError (obj : CometObject) : Bool :=
  typeOf obj = ErrorType

/-- `boolValue`: select the shared TRUE/FALSE singleton. -/
def boolValue (condition : Bool) : CometObject :=
  if condition then TrueObject else FalseObject

/-- `applyOp` (Int × Int dispatch).  Division mirrors Go `int64` division:
truncation toward zero, and a runtime panic on a zero divisor. -/
def applyOp (op : TokenType) (left right : CometObject) :
    Except String CometObject :=
  match left, right with
  | .CometInt a, .CometInt b =>
    if op = Plus then .ok (.CometInt (a + b))
    else if op = Minus then .ok (.CometInt (a - b))
    else if op = Mul then .ok (.CometInt (a * b))
    else if op = Div then
      if b = 0 then .error "runtime error: integer divide by zero"
      else .ok (.CometInt (Int.tdiv a b))
    else if op = EQ then .ok (boolValue (decide (a = b)))
    else if op = NEQ then .ok (boolValue (decide (a ≠ b)))
    else if op = LTE then .ok (boolValue (decide (a ≤ b)))
    else if op = LT then .ok (boolValue (decide (a < b)))
    else if op = GTE then .ok (boolValue (decide (b ≤ a)))
    else if op = GT then .ok (boolValue (decide (b < a)))
    else if op = DotDot then .ok (.CometRange a b)
    else .ok (CreateError ("Cannot recognize binary operator " ++ op))
  | _, _ => .error "interface conversion: CometObject is not *CometInt"

/-- `applyStrOp` (Str × Str dispatch): only `+`, concatenating the texts
and summing the cached sizes. -/
def applyStrOp (op : TokenType) (left right : CometObject) :
    Except String CometObject :=
  match left, right with
  | .CometStr ls lz, .CometStr rs rz =>
    if op = Plus then .ok (.CometStr (ls ++ rs) (lz + rz))
    else .ok (CreateError
      ("Cannot execute binary operator \x27" ++ op ++ "\x27 on strings"))
  | _, _ => .error "interface conversion: CometObject is not *CometStr"

/-- `applyBoolOp` (Bool × Bool dispatch): only `==` and `!=`. -/
def applyBoolOp (op : TokenType) (left right : CometObject) :
    Except String CometObject :=
  match left, right with
  | .CometBool a, .CometBool b =>
    if op = "==" then .ok (boolValue (a = b))
    else if op = "!=" then .ok (boolValue (a ≠ b))
    else .ok (CreateError ("None-applicable operator " ++ op ++ " for booleans"))
  | _, _ => .error "interface conversion: CometObject is not *CometBool"

/-- `std.ToString`: convert a value to a `CometStr` for mixed-operand `+`.
The Bool case caches `Size: 4` for both `"true"` and `"false"`; the default
case is an explicit Go panic. -/
def ToString (object : CometObject) : Except String CometObject :=
  match object with
  | .CometStr s z => .ok (.CometStr s z)
  | .CometBool b =>
    .ok (.CometStr (if b then "true" else "false") 4)
  | .CometInt v =>
    .ok (.CometStr (toString v) ((toString v).utf8ByteSize : Int))
  | .CometFunc _ _ _ =>
    .ok (.CometStr "CometFunc" (("CometFunc" : String).utf8ByteSize : Int))
  | .CometError m => .ok (.CometStr m (m.utf8ByteSize : Int))
  | _ => .error "All types should have been exhausted!!"

/-- `strings.Repeat`. -/
def repeatStr (s : String) : Nat → String
  | 0 => ""
  | n + 1 => s ++ repeatStr s n

/-- The value-level dispatch of `evalBinaryExpression`, applied after both
operands have been evaluated and found error-free (the tail of the Go
function, from the Int×Int test to the final `CreateError`). -/
def binaryDispatch (op : Token) (left right : CometObject) :
    Except String CometObject :=
  if typeOf left = IntType ∧ typeOf right = IntType then
    applyOp op.tokenType left right
  else if typeOf left = BoolType ∧ typeOf right = BoolType then
    applyBoolOp op.tokenType left right
  else if typeOf left = StrType ∧ typeOf right = StrType then
    applyStrOp op.tokenType left right
  else if typeOf left = StrType ∨ typeOf right = StrType then
    if op.tokenType = Plus then
      match ToString left, ToString right with
      | .ok l, .ok r => applyStrOp Plus l r
      | .error m, _ => .error m
      | _, .error m => .error m
    else if op.tokenType = Mul ∧ (typeOf left = IntType ∨ typeOf right = IntType) then
      match left, right with
      | .CometInt c, .CometStr s z =>
        if c < 0 then .error "strings: negative Repeat count"
        else .ok (.CometStr (repeatStr s c.toNat) (c * z))
      | .CometStr s z, .CometInt c =>
        if c < 0 then .error "strings: negative Repeat count"
        else .ok (.CometStr (repeatStr s c.toNat) (c * z))
      | _, _ => .error "interface conversion"
    else
      .ok (CreateError ("Cannot apply operation \x27" ++ op.literal
        ++ "\x27 on operands of type \x27" ++ typeOf left
        ++ "\x27 and \x27" ++ typeOf right ++ "\x27"))
  else if typeOf left ≠ typeOf right ∧ op.tokenType = EQ then
    .ok FalseObject
  else if typeOf left ≠ typeOf right ∧ op.tokenType = NEQ then
    .ok TrueObject
  else
    .ok (CreateError ("Cannot apply operator " ++ op.literal
      ++ " on given types " ++ typeOf left ++ " and " ++ typeOf right))

/-- The struct name an instance reference points at (for display). -/
def instanceTypeName (heap : List InstanceData) (ref : Nat) : String :=
  match heap.get? ref with
  | some inst => inst.strct.name
  | none => "<invalid>"

/-- The `ToString()` method of each `std` value variant (debug/display
form), used by `evalConditional` for its error message. -/
def objToString (heap : List InstanceData) : CometObject → String
  | .CometInt v => "CometInt(" ++ toString v ++ ")"
  | .CometBool v => "CometBool(" ++ (if v then "true" else "false") ++ ")"
  | .CometStr s _ => "CometStr(\"" ++ s ++ "\")"
  | .CometArray _ vs =>
    "[" ++ String.intercalate ", "
      (vs.attach.map (fun x => objToString heap x.1)) ++ "]"
  | .CometError m => "Comet error: \n\n\t" ++ m
  | .NopObject => "CometNop"
  | .CometReturnWrapper v => "CometWrapper(" ++ objToString heap v ++ ")"
  | .CometFunc _ _ _ => "CometFunc"
  | .CometRange lo hi =>
    "CometRange(" ++ toString lo ++ ", " ++ toString hi ++ ")"
  | .CometInstance ref => "CometInstance(Type=" ++ instanceTypeName heap ref ++ ")"
termination_by o => sizeOf o
decreasing_by
all_goals simp_wf
all_goals (have h := List.sizeOf_lt_of_mem x.2; omega)

/-- Map read on a string-keyed Go map embedded as an association list. -/
def assocLookup {α : Type} : List (String × α) → String → Option α
  | [], _ => none
  | (k, v) :: rest, x => if k = x then some v else assocLookup rest x

/-- Map assignment on a string-keyed Go map embedded as an association
list. -/
def assocUpdate {α : Type} : List (String × α) → String → α → List (String × α)
  | [], x, v => [(x, v)]
  | (k, w) :: rest, x, v =>
    if k = x then (k, v) :: rest else (k, w) :: assocUpdate rest x v

/-- `CometStruct.Add`: reject duplicate method names, else extend the
method map. -/
def CometStruct.Add (s : CometStruct) (fn : FuncData) :
    Except String CometStruct :=
  match assocLookup s.methods fn.name with
  | some _ => .error ("Method already exist with the name \x27" ++ fn.name
      ++ "\x27 on \x27" ++ s.name ++ "\x27 struct")
  | none => .ok { s with methods := s.methods ++ [(fn.name, fn)] }

/-- `CometStruct.GetConstructor`: the `init` method, if any. -/
def CometStruct.GetConstructor (s : CometStruct) : Option FuncData :=
  assocLookup s.methods "init"

/-- Modelled from the spec: `CometStruct.GetMethod` (its defining file is
not among the provided sources; per spec section 4.5 it returns a method by
name or signals not-found). -/
def CometStruct.GetMethod (s : CometStruct) (name : String) : Option FuncData :=
  assocLookup s.methods name

/-- The type of one recursion level of the evaluator: the helpers below
each receive the next level as an argument (`Eval` ties the knot with
fuel). -/
abbrev EvalFn := EvalState → Node → Res

/-- The `printf` builtin callback from `std.Builtins` (the actual
`fmt.Printf` output is outside the embedded state). -/
def printfBuiltin (args : List CometObject) : CometObject :=
  match args with
  | [] => CreateError "Expected 1 or more arguments, got none."
  | first :: _ =>
    if typeOf first ≠ StrType then
      CreateError ("First argument expected to be CometString got \x27"
        ++ typeOf first ++ "\x27 instead")
    else NopInstance

/-- The `println` builtin callback from `std.Builtins` (the actual
`fmt.Println` output is outside the embedded state). -/
def printlnBuiltin (args : List CometObject) : CometObject :=
  match args with
  | [] => NopInstance
  | [_] => NopInstance
  | _ => CreateError ("Expected 0 or 1 arguments, got "
      ++ toString args.length ++ ".")

/-- `invokeBuiltin`: dispatch to the registered callback.  The evaluator
only calls this after `isBuiltinFunc` succeeded, and `New()` registers
exactly `printf` and `println`; the default branch is unreachable. -/
def invokeBuiltin (name : String) (args : List CometObject) : CometObject :=
  if name = "printf" then printfBuiltin args
  else if name = "println" then printlnBuiltin args
  else NopInstance

/-- `evalRootNode`: run the statements in order; a `ReturnWrapper` is
unwrapped and returned, an `Error` is returned, otherwise the last
statement's result (initially Nop) is returned. -/
def evalRootNode (eval : EvalFn) : EvalState → List Node → Res
  | st, [] => .ok NopInstance st
  | st, s :: rest =>
    match eval st s with
    | .ok res st1 =>
      match res with
      | .CometReturnWrapper v => .ok v st1
      | .CometError m => .ok (.CometError m) st1
      | _ =>
        match rest with
        | [] => .ok res st1
        | _ => evalRootNode eval st1 rest
    | .panicked m => .panicked m
    | .timeout => .timeout

/-- `evalStatements` (block bodies): like the root, but a `ReturnWrapper`
is returned unchanged so it keeps propagating outward. -/
def evalStatements (eval : EvalFn) : EvalState → List Node → Res
  | st, [] => .ok NopInstance st
  | st, s :: rest =>
    match eval st s with
    | .ok res st1 =>
      match res with
      | .CometReturnWrapper v => .ok (.CometReturnWrapper v) st1
      | .CometError m => .ok (.CometError m) st1
      | _ =>
        match rest with
        | [] => .ok res st1
        | _ => evalStatements eval st1 rest
    | .panicked m => .panicked m
    | .timeout => .timeout

/-- `evalPrefixExpression`: `-` on Int, `!` on Bool, error otherwise (the
in-place negation of the Int object in the source is observationally the
returned negated value). -/
def evalPrefixExpression (eval : EvalFn) (st : EvalState) (op : Token)
    (right : Node) : Res :=
  match eval st right with
  | .ok res st1 =>
    if isError res then .ok res st1
    else if op.tokenType = Minus then
      match res with
      | .CometInt v => .ok (.CometInt (v * (-1))) st1
      | _ => .ok (CreateError ("Cannot apply operator (-) on none INTEGER type "
          ++ typeOf res)) st1
    else if op.tokenType = Bang then
      match res with
      | .CometBool v => .ok (if v then FalseObject else TrueObject) st1
      | _ => .ok (CreateError ("Cannot apply operator (!) on none BOOLEAN type "
          ++ typeOf res)) st1
    else .ok (CreateError ("Unrecognized prefix operator " ++ op.literal)) st1
  | other => other

/-- `evalArrayElements`: evaluate every element left to right with no
error check, and wrap the results (Error values included) in an Array. -/
def evalElementList (eval : EvalFn) : EvalState → List Node →
    ResOf (List CometObject)
  | st, [] => .ok [] st
  | st, e :: rest =>
    match eval st e with
    | .ok v st1 =>
      match evalElementList eval st1 rest with
      | .ok vs st2 => .ok (v :: vs) st2
      | .panicked m => .panicked m
      | .timeout => .timeout
    | .panicked m => .panicked m
    | .timeout => .timeout

/-- `evalArrayElements`, see `evalElementList` for the element loop. -/
def evalArrayElements (eval : EvalFn) (st : EvalState)
    (elements : List Node) : Res :=
  match evalElementList eval st elements with
  | .ok vs st1 => .ok (.CometArray (elements.length : Int) vs) st1
  | .panicked m => .panicked m
  | .timeout => .timeout

/-- `evalConditional`: a non-Bool test (an Error value included) yields a
fresh Error built from the test value's display form. -/
def evalConditional (eval : EvalFn) (st : EvalState)
    (test thenBlock elseBlock : Node) : Res :=
  match eval st test with
  | .ok predicateRes st1 =>
    if typeOf predicateRes ≠ BoolType then
      .ok (CreateError
        ("Test part of the if statement should evaluate to CometBool, evaluated to "
          ++ objToString st1.heap predicateRes ++ " instead")) st1
    else
      match predicateRes with
      | .CometBool true => eval st1 thenBlock
      | .CometBool false => eval st1 elseBlock
      | _ => .panicked "interface conversion: CometObject is not *CometBool"
  | other => other

/-- `evalDeclareStatement`: evaluate, propagate Error, `Declare` in the
current frame, and return the evaluated value. -/
def evalDeclareStatement (eval : EvalFn) (st : EvalState)
    (identifier : String) (expression : Node) : Res :=
  match eval st expression with
  | .ok value st1 =>
    if isError value then .ok value st1
    else .ok value { st1 with scope := ScopeDeclare st1.scope identifier value }
  | other => other

/-- `evalIdentifier`: scope-chain lookup, with the not-bounded Error. -/
def evalIdentifier (st : EvalState) (name : String) : Res :=
  match ScopeLookup st.scope name with
  | none => .ok (CreateError ("Identifier (" ++ name
      ++ ") is not bounded to any value, have you tried declaring it?")) st
  | some obj => .ok obj st

/-- `registerFunc`: build the `CometFunc`, `Declare` it under its name and
return it. -/
def registerFunc (st : EvalState) (name : String) (parameters : List String)
    (block : Node) : Res :=
  let function := CometObject.CometFunc name parameters block
  .ok function { st with scope := ScopeDeclare st.scope name function }

/-- `EvalAssignExpression`: require the name to be declared somewhere in
the chain, evaluate and unwrap the right-hand side (no error check — an
Error value is stored and returned), and `Store` it. -/
def EvalAssignExpression (eval : EvalFn) (st : EvalState)
    (varName : String) (value : Node) : Res :=
  match ScopeLookup st.scope varName with
  | none => .ok (CreateError ("Identifier (" ++ varName
      ++ ") is not bounded to any value, have you tried declaring it?")) st
  | some _ =>
    match eval st value with
    | .ok result st1 =>
      let result := unwrap result
      .ok result { st1 with scope := (ScopeStore st1.scope varName result).1 }
    | other => other

/-- `evalArrayAccess`: require an Array target, an Int index, and an index
in `[0, length)`. -/
def evalArrayAccess (eval : EvalFn) (st : EvalState)
    (identifier index : Node) : Res :=
  match eval st identifier with
  | .ok array st1 =>
    if typeOf array ≠ ArrayType then
      .ok (CreateError ("Expected CometArray got " ++ typeOf array)) st1
    else
      match eval st1 index with
      | .ok idx st2 =>
        if typeOf idx ≠ IntType then
          .ok (CreateError ("Expected CometInt got " ++ typeOf idx)) st2
        else
          match array, idx with
          | .CometArray length values, .CometInt i =>
            if i < 0 ∨ length ≤ i then
              .ok (CreateError ("Array access out of bounds, array of length "
                ++ toString length ++ ", index was: " ++ toString i)) st2
            else
              match values.get? i.toNat with
              | some v => .ok v st2
              | none => .panicked "runtime error: index out of range"
          | _, _ => .panicked "interface conversion"
      | other => other
  | other => other

/-- The method-registration loop of `evalStructDecl`: `Add` each declared
method, stopping at the first duplicate name. -/
def addMethods (s : CometStruct) :
    List (String × List String × Node) → Except String CometStruct
  | [] => .ok s
  | (mname, mparams, mbody) :: rest =>
    match s.Add ⟨mname, mparams, mbody⟩ with
    | .ok s1 => addMethods s1 rest
    | .error e => .error e

/-- `evalStructDecl`: build the descriptor, register it in the types map
and return Nop; a duplicate method name becomes an Error result and the
type is not registered. -/
def evalStructDecl (st : EvalState) (name : String)
    (methods : List (String × List String × Node)) : Res :=
  match addMethods { name := name, methods := [] } methods with
  | .error e => .ok (CreateError e) st
  | .ok s =>
    .ok NopInstance { st with types := assocUpdate st.types s.name s }

/-- The parameter-binding loop of `evalCallExpression`: for each declared
parameter, evaluate the argument at the same position (Go indexes the
argument slice, panicking when it is too short) and bind it — Error values
included, there is no error check here.  Extra arguments are never
visited. -/
def bindCallParams (eval : EvalFn) : EvalState → Frame → List String →
    List Node → ResOf Frame
  | st, acc, [], _ => .ok acc st
  | _, _, _ :: _, [] => .panicked "runtime error: index out of range"
  | st, acc, p :: ps, a :: args =>
    match eval st a with
    | .ok v st1 => bindCallParams eval st1 (frameUpdate acc p v) ps args
    | .panicked m => .panicked m
    | .timeout => .timeout

/-- `evalCallExpression`: builtins take precedence (all arguments
evaluated, no short-circuit), then scope lookup, the Func type check, the
parameter binding into a fresh child frame, body evaluation under the
swapped-in scope, and restoration of the caller scope.  The result is
returned without unwrapping — `Eval`'s dispatch unwraps it. -/
def evalCallExpression (eval : EvalFn) (st : EvalState) (funcName : String)
    (arguments : List Node) : Res :=
  if st.builtins.contains funcName then
    match evalElementList eval st arguments with
    | .ok args st1 => .ok (invokeBuiltin funcName args) st1
    | .panicked m => .panicked m
    | .timeout => .timeout
  else
    match ScopeLookup st.scope funcName with
    | none => .ok (CreateError ("Cannot find callable symbol " ++ funcName)) st
    | some function =>
      match function with
      | .CometFunc _ params body =>
        match bindCallParams eval st [] params arguments with
        | .ok callSiteFrame st1 =>
          match eval { st1 with scope := callSiteFrame :: st1.scope } body with
          | .ok result st2 => .ok result { st2 with scope := st2.scope.tail }
          | .panicked m => .panicked m
          | .timeout => .timeout
        | .panicked m => .panicked m
        | .timeout => .timeout
      | _ => .ok (CreateError ("Cannot invoke none callable object of type "
          ++ typeOf function)) st

/-- The call-site frame of `callOnObject`: `this` bound to the receiver,
then each parameter bound in order. -/
def buildMethodFrame (ref : Nat) (params : List (String × CometObject)) :
    Frame :=
  params.foldl (fun f p => frameUpdate f p.1 p.2)
    (frameUpdate [] "this" (.CometInstance ref))

/-- `callOnObject`: look the method up in the instance's struct, run its
body in a fresh child scope holding `this` and the parameters, restore the
caller scope, and unwrap a `ReturnWrapper` if present. -/
def callOnObject (eval : EvalFn) (st : EvalState) (name : String) (ref : Nat)
    (params : List (String × CometObject)) : Res :=
  match st.heap.get? ref with
  | none => .panicked "invalid memory address or nil pointer dereference"
  | some object =>
    match assocLookup object.strct.methods name with
    | some constructor =>
      match eval { st with scope := buildMethodFrame ref params :: st.scope }
          constructor.body with
      | .ok res st1 => .ok (unwrap res) { st1 with scope := st1.scope.tail }
      | .panicked m => .panicked m
      | .timeout => .timeout
    | none => .ok (CreateError ("Method \x27" ++ name
        ++ "\x27 Not found on instance of type \x27"
        ++ object.strct.name ++ "\x27")) st

/-- The argument loop of the method-call branch of `evalBinaryExpression`:
evaluate one argument per declared parameter (indexing the argument list),
short-circuiting on an Error value, and pair it with the parameter name.
The `Except` layer of the value carries such an Error argument out. -/
def evalMethodArgs (eval : EvalFn) : EvalState → List String → List Node →
    ResOf (Except CometObject (List (String × CometObject)))
  | st, [], _ => .ok (.ok []) st
  | _, _ :: _, [] => .panicked "runtime error: index out of range"
  | st, p :: ps, a :: args =>
    match eval st a with
    | .ok v st1 =>
      if typeOf v = ErrorType then .ok (.error v) st1
      else
        match evalMethodArgs eval st1 ps args with
        | .ok (.ok rest) st2 => .ok (.ok ((p, v) :: rest)) st2
        | other => other
    | .panicked m => .panicked m
    | .timeout => .timeout

/-- The `Dot` branch of `evalBinaryExpression`, dispatching on the shape of
the right-hand node before it is reduced to a value.  The field-set and
field-get branches type-assert the left value (a Go panic when it is not an
instance); a read of a never-set field yields Go's `nil` zero value, which
is embedded as a panic at its first use. -/
def evalDotOperation (eval : EvalFn) (st : EvalState) (left : CometObject)
    (rightNode : Node) : Res :=
  match rightNode with
  | .AssignExpression varName value =>
    match left with
    | .CometInstance ref =>
      match eval st value with
      | .ok val st1 =>
        match st1.heap.get? ref with
        | some inst =>
          let inst1 := { inst with fields := assocUpdate inst.fields varName val }
          .ok NopInstance { st1 with heap := st1.heap.set ref inst1 }
        | none => .panicked "invalid memory address or nil pointer dereference"
      | .panicked m => .panicked m
      | .timeout => .timeout
    | _ => .panicked "interface conversion: CometObject is not *CometInstance"
  | .IdentifierExpression idName =>
    match left with
    | .CometInstance ref =>
      match st.heap.get? ref with
      | some inst =>
        match assocLookup inst.fields idName with
        | some v => .ok v st
        | none => .panicked "nil CometObject (field never set)"
      | none => .panicked "invalid memory address or nil pointer dereference"
    | _ => .panicked "interface conversion: CometObject is not *CometInstance"
  | .CallExpression fnName argNodes =>
    match left with
    | .CometInstance ref =>
      match st.heap.get? ref with
      | some inst =>
        match inst.strct.GetMethod fnName with
        | none => .ok (CreateError ("Could not find method \x27" ++ fnName
            ++ "\x27 on type \x27" ++ inst.strct.name ++ "\x27")) st
        | some method =>
          if method.params.length > argNodes.length then
            .ok (CreateError ("Method \x27" ++ method.name
              ++ "\x27 on type \x27" ++ inst.strct.name
              ++ "\x27 expects at least " ++ toString method.params.length
              ++ " parameters, " ++ toString argNodes.length
              ++ " were given")) st
          else
            match evalMethodArgs eval st method.params argNodes with
            | .ok (.ok params) st1 => callOnObject eval st1 fnName ref params
            | .ok (.error v) st1 => .ok v st1
            | .panicked m => .panicked m
            | .timeout => .timeout
      | none => .panicked "invalid memory address or nil pointer dereference"
    | _ => .ok (CreateError ("Cannot call method \x27" ++ fnName
        ++ "\x27 on none object type")) st
  | _ => .ok (CreateError "Used \x27.\x27 operator with none function element") st

/-- `evalBinaryExpression`: evaluate the left side and short-circuit on an
Error value; hand `.` to the structural dot handling; otherwise evaluate
the right side, short-circuit on an Error value, and dispatch on the value
pair (see `binaryDispatch`). -/
def evalBinaryExpression (eval : EvalFn) (st : EvalState) (op : Token)
    (left right : Node) : Res :=
  match eval st left with
  | .ok l st1 =>
    if isError l then .ok l st1
    else if op.tokenType = Dot then evalDotOperation eval st1 l right
    else
      match eval st1 right with
      | .ok r st2 =>
        if isError r then .ok r st2
        else
          match binaryDispatch op l r with
          | .ok v => .ok v st2
          | .error m => .panicked m
      | other => other
  | other => other

/-- The argument loop of `evalNewCall`: evaluate each supplied argument,
short-circuiting on an Error value, and pair it with the constructor
parameter at the same position (Go indexes the constructor's parameter
slice, panicking when it is too short). -/
def evalNewCallArgs (eval : EvalFn) : EvalState → List Node → List String →
    ResOf (Except CometObject (List (String × CometObject)))
  | st, [], _ => .ok (.ok []) st
  | _, _ :: _, [] => .panicked "runtime error: index out of range"
  | st, a :: args, p :: ps =>
    match eval st a with
    | .ok v st1 =>
      if typeOf v = ErrorType then .ok (.error v) st1
      else
        match evalNewCallArgs eval st1 args ps with
        | .ok (.ok rest) st2 => .ok (.ok ((p, v) :: rest)) st2
        | other => other
    | .panicked m => .panicked m
    | .timeout => .timeout

/-- `evalNewCall`: look up the type, allocate the instance, run `init`
through `callOnObject` when it exists (an argument list without a declared
constructor is an Error), and return the instance. -/
def evalNewCall (eval : EvalFn) (st : EvalState) (typeName : String)
    (args : List Node) : Res :=
  match assocLookup st.types typeName with
  | none => .ok (CreateError ("Type \x27" ++ typeName ++ "\x27 not found")) st
  | some t =>
    let ref := st.heap.length
    let st1 := { st with heap := st.heap ++ [{ strct := t, fields := [] }] }
    match t.GetConstructor with
    | none =>
      if args.length > 0 then
        .ok (CreateError ("Cannot find a defined constructor on the \x27"
          ++ t.name
          ++ "\x27 type, make sure to define an \x27init\x27 method on the struct"))
          st1
      else .ok (.CometInstance ref) st1
    | some constructor =>
      match evalNewCallArgs eval st1 args constructor.params with
      | .ok (.ok params) st2 =>
        match callOnObject eval st2 "init" ref params with
        | .ok res st3 =>
          if typeOf res = ErrorType then .ok res st3
          else .ok (.CometInstance ref) st3
        | .panicked m => .panicked m
        | .timeout => .timeout
      | .ok (.error v) st2 => .ok v st2
      | .panicked m => .panicked m
      | .timeout => .timeout

/-- The values of a loop variable climbing by plain (non-wrapping)
increments, counted down by the number of remaining iterations (kept
structurally recursive so that concrete loops compute). -/
def rangeIterAux : Nat → Int → List Int
  | 0, _ => []
  | n + 1, lo => lo :: rangeIterAux n (lo + 1)

/-- The values of a loop variable climbing by plain (non-wrapping)
increments from `lo` while `i <= hi`. -/
def rangeIter (lo hi : Int) : List Int :=
  rangeIterAux (hi + 1 - lo).toNat lo

/-- `math.MinInt64`: the smallest `int64` value, `-2^63`. -/
def MinInt64 : Int := -9223372036854775808

/-- `math.MaxInt64`: the largest `int64` value, `2^63 - 1`. -/
def MaxInt64 : Int := 9223372036854775807

/-- Two's-complement `int64` wrap-around: the value the Go increment
`i++` actually stores (reduction into `[-2^63, 2^63)`). -/
def wrap64 (n : Int) : Int :=
  (n - MinInt64) % 18446744073709551616 + MinInt64

/-- The successive values of the `int64` loop variable of
`for i := lo; i <= hi; i++`, or `none` when the loop never exits.  This is
the closed form of the Go loop with its wrapping increment: when
`lo > hi` the body never runs; when `lo ≤ hi` and `hi ≥ 2^63 - 1` every
wrapped counter value satisfies `i <= hi`, so the loop never terminates;
otherwise the counter after the first iteration is the in-range `int64`
`wrap64 (lo + 1)`, from which no later increment can wrap because the
counter is bounded by `hi + 1 ≤ 2^63 - 1` (the loop equation is proved as
`goForIter_eq`). -/
def goForIter (lo hi : Int) : Option (List Int) :=
  if lo > hi then some []
  else if MaxInt64 ≤ hi then none
  else some (lo :: rangeIter (wrap64 (lo + 1)) hi)


/-- The state in which one `for`-loop iteration evaluates the body: both
the key and the value identifier just declared to the current Int. -/
def iterState (keyName valueName : String) (i : Int) (st : EvalState) :
    EvalState :=
  let chain := ScopeDeclare st.scope keyName (.CometInt i)
  { st with scope := ScopeDeclare chain valueName (.CometInt i) }

/-- One iteration of the `for`-loop body: declare both identifiers, then
evaluate the body and discard its result (the source ignores the value
`ev.Eval(n.Body)` produces, so Errors and ReturnWrappers from the body are
dropped here). -/
def forLoopStep (eval : EvalFn) (keyName valueName : String) (body : Node)
    (st : EvalState) (i : Int) : ResOf Unit :=
  match eval (iterState keyName valueName i st) body with
  | .ok _ st1 => .ok () st1
  | .panicked m => .panicked m
  | .timeout => .timeout

/-- The `for`-loop proper: one `forLoopStep` per value of the loop
variable. -/
def forLoopIter (eval : EvalFn) (keyName valueName : String) (body : Node) :
    EvalState → List Int → ResOf Unit
  | st, [] => .ok () st
  | st, i :: rest =>
    match forLoopStep eval keyName valueName body st i with
    | .ok _ st1 => forLoopIter eval keyName valueName body st1 rest
    | .panicked m => .panicked m
    | .timeout => .timeout

/-- `evalForStatement`: only a Range target is supported (anything else is
an explicit Go panic).  A fresh child scope is pushed for the loop, both
identifiers are cleared afterwards, the caller scope is restored, and the
result is Nop.  A loop whose `int64` counter wraps forever (`goForIter`
returns `none`) is below every fuel bound, so it is the `timeout` outcome
at every fuel. -/
def evalForStatement (eval : EvalFn) (st : EvalState)
    (keyName valueName : String) (rangeExpr body : Node) : Res :=
  match eval st rangeExpr with
  | .ok obj st1 =>
    match obj with
    | .CometRange lo hi =>
      match goForIter lo hi with
      | none => .timeout
      | some iters =>
        let st2 := { st1 with scope := ([] : Frame) :: st1.scope }
        match forLoopIter eval keyName valueName body st2 iters with
        | .ok _ st3 =>
          let cleared := ScopeClear (ScopeClear st3.scope keyName) valueName
          .ok NopInstance { st3 with scope := cleared.tail }
        | .panicked m => .panicked m
        | .timeout => .timeout
    | _ => .panicked "not implemented yet!!"
  | .panicked m => .panicked m
  | .timeout => .timeout

/-- `Eval`, the single entry point of the evaluator: structural dispatch on
the node kind, with fuel bounding the recursion depth. -/
def Eval : Nat → EvalState → Node → Res
  | 0, _, _ => .timeout
  | fuel + 1, st, node =>
    match node with
    | .RootNode statements => evalRootNode (Eval fuel) st statements
    | .PrefixExpression op right => evalPrefixExpression (Eval fuel) st op right
    | .NumberLiteral v => .ok (.CometInt v) st
    | .BooleanLiteral b => .ok (if b then TrueObject else FalseObject) st
    | .StringLiteral s => .ok (.CometStr s (s.utf8ByteSize : Int)) st
    | .ArrayLiteral elements => evalArrayElements (Eval fuel) st elements
    | .BinaryExpression op left right =>
      evalBinaryExpression (Eval fuel) st op left right
    | .ParenthesisedExpression e => Eval fuel st e
    | .IfStatement test thenB elseB =>
      evalConditional (Eval fuel) st test thenB elseB
    | .BlockStatement statements => evalStatements (Eval fuel) st statements
    | .ReturnStatement e =>
      match Eval fuel st e with
      | .ok result st1 =>
        if isError result then .ok result st1
        else .ok (.CometReturnWrapper result) st1
      | .panicked m => .panicked m
      | .timeout => .timeout
    | .DeclarationStatement identifier e =>
      evalDeclareStatement (Eval fuel) st identifier e
    | .IdentifierExpression name => evalIdentifier st name
    | .FunctionStatement name parameters block =>
      registerFunc st name parameters block
    | .CallExpression name arguments =>
      match evalCallExpression (Eval fuel) st name arguments with
      | .ok result st1 => .ok (unwrap result) st1
      | .panicked m => .panicked m
      | .timeout => .timeout
    | .AssignExpression varName value =>
      EvalAssignExpression (Eval fuel) st varName value
    | .IndexAccess identifier index =>
      evalArrayAccess (Eval fuel) st identifier index
    | .ForStatement keyName valueName rangeExpr body =>
      match evalForStatement (Eval fuel) st keyName valueName rangeExpr body with
      | .ok result st1 => .ok (unwrap result) st1
      | .panicked m => .panicked m
      | .timeout => .timeout
    | .StructDeclarationStatement name methods => evalStructDecl st name methods
    | .NewCallExpr typeName args => evalNewCall (Eval fuel) st typeName args

/-- Lexer state, `pkg/lexer/lexer.go` (`current` is the byte under the
cursor). -/
structure Lexer where
  src : String
  pos : Nat
  current : Nat
  inputSize : Nat
  line : Nat
  column : Nat
  deriving DecidableEq, Repr

/-- `NewLexer`: initialise the cursor with `src[0]`.  Go string indexing
panics on an empty string, so the empty source aborts the whole
`parser.New`/`Parse` pipeline before any token is read. -/
def NewLexer (src : String) : Except String Lexer :=
  if src.utf8ByteSize = 0 then
    .error "runtime error: index out of range [0] with length 0"
  else
    .ok { src := src
          pos := 0
          current := ((src.toUTF8.data.get? 0).getD 0).toNat
          inputSize := src.utf8ByteSize
          line := 1
          column := 1 }

/-- The object part of an evaluation outcome (projection used to state
results independently of the final state). -/
def resultObj : Res → Option CometObject
  | .ok obj _ => some obj
  | _ => none

/-- Fixture for the assignment claims: an inner frame binding `y` and an
outer (global) frame binding `x`. -/
def assignFixture : EvalState :=
  { NewEvaluator with scope := [[("y", .CometInt 1)], [("x", .CometInt 0)]] }

/-- Fixture struct for the method-call claims: one method `m(p)` returning
its parameter. -/
def methodM : FuncData :=
  { name := "m"
    params := ["p"]
    body := .BlockStatement [.ReturnStatement (.IdentifierExpression "p")] }

/-- Fixture struct for the method-call claims (continued). -/
def structA : CometStruct :=
  { name := "A", methods := [("m", methodM)] }

/-- Fixture state for the method-call claims: one instance of `structA` on
the heap, bound to `a` in the global scope. -/
def methodFixture : EvalState :=
  { NewEvaluator with
      scope := [[("a", .CometInstance 0)]]
      types := [("A", structA)]
      heap := [{ strct := structA, fields := [] }] }

/-- Fixture program for the return-in-for-loop claim:
`func f() { for i in 1..1 { return 5 } return 7 }  f()`. -/
def returnInForProgram : Node :=
  .RootNode
    [.FunctionStatement "f" [] (.BlockStatement
       [.ForStatement "i" "__empty__"
          (.BinaryExpression ⟨DotDot, ".."⟩ (.NumberLiteral 1) (.NumberLiteral 1))
          (.BlockStatement [.ReturnStatement (.NumberLiteral 5)]),
        .ReturnStatement (.NumberLiteral 7)]),
     .CallExpression "f" []]

/-- The loop body of the iteration-counting program: `c = c + 1`. -/
def counterBody : Node :=
  .BlockStatement
    [.AssignExpression "c"
      (.BinaryExpression ⟨Plus, "+"⟩ (.IdentifierExpression "c") (.NumberLiteral 1))]

/-- The iteration-counting program for the `for`-loop claim:
`var c = 0  for k in L..H { c = c + 1 }  c`. -/
def counterProgram (lo hi : Int) : Node :=
  .RootNode
    [.DeclarationStatement "c" (.NumberLiteral 0),
     .ForStatement "k" "__empty__"
       (.BinaryExpression ⟨DotDot, ".."⟩ (.NumberLiteral lo) (.NumberLiteral hi))
       counterBody,
     .IdentifierExpression "c"]

/-- The for statement whose `int64` loop counter wraps forever:
`for k in 0..9223372036854775807 { }`. -/
def divergentForStatement : Node :=
  .ForStatement "k" "__empty__"
    (.BinaryExpression ⟨DotDot, ".."⟩ (.NumberLiteral 0)
      (.NumberLiteral MaxInt64))
    (.BlockStatement [])

/-- The loop frame as it looks while the counting program iterates. -/
def kvFrame (j : Int) : Frame :=
  [("k", .CometInt j), ("__empty__", .CometInt j)]

/-- The evaluator state of the counting program: loop frame `f` over a
global frame binding `c` to `n`. -/
def counterState (f : Frame) (n : Int) : EvalState :=
  { NewEvaluator with scope := [f, [("c", .CometInt n)]] }

-- scratch sanity checks (spec section 8 scenarios)
example : Eval 10 NewEvaluator
    (.BinaryExpression ⟨Plus, "+"⟩ (.NumberLiteral 1)
      (.BinaryExpression ⟨Mul, "*"⟩ (.NumberLiteral 2) (.NumberLiteral 3)))
    = .ok (.CometInt 7) NewEvaluator := rfl

example : resultObj (Eval 10 NewEvaluator (.RootNode
    [.DeclarationStatement "a" (.NumberLiteral 1),
     .DeclarationStatement "b" (.NumberLiteral 2),
     .BinaryExpression ⟨Plus, "+"⟩ (.IdentifierExpression "a")
       (.IdentifierExpression "b")])) = some (.CometInt 3) := rfl

example : resultObj (Eval 10 NewEvaluator (.RootNode
    [.IfStatement (.BinaryExpression ⟨EQ, "=="⟩ (.NumberLiteral 1) (.NumberLiteral 1))
       (.BlockStatement [.ReturnStatement (.NumberLiteral 10)])
       (.BlockStatement [.ReturnStatement (.NumberLiteral 20)])]))
    = some (.CometInt 10) := rfl

example : resultObj (Eval 10 NewEvaluator
    (.BinaryExpression ⟨Plus, "+"⟩ (.NumberLiteral 1) (.BooleanLiteral true)))
    = some (.CometError "Cannot apply operator + on given types INTEGER and BOOLEAN")
    := rfl

example : resultObj (Eval 20 NewEvaluator (.RootNode
    [.DeclarationStatement "s" (.StringLiteral ""),
     .ForStatement "i" "__empty__"
       (.BinaryExpression ⟨DotDot, ".."⟩ (.NumberLiteral 1) (.NumberLiteral 3))
       (.BlockStatement [.AssignExpression "s"
         (.BinaryExpression ⟨Plus, "+"⟩ (.IdentifierExpression "s")
           (.IdentifierExpression "i"))]),
     .IdentifierExpression "s"])) = some (.CometStr "123" 3) := rfl

example : resultObj (Eval 30 NewEvaluator (.RootNode
    [.StructDeclarationStatement "A"
       [("init", [], .BlockStatement
          [.BinaryExpression ⟨Dot, "."⟩ (.IdentifierExpression "this")
            (.AssignExpression "x" (.NumberLiteral 5))]),
        ("get", [], .BlockStatement
          [.ReturnStatement (.BinaryExpression ⟨Dot, "."⟩
            (.IdentifierExpression "this") (.IdentifierExpression "x"))])],
     .DeclarationStatement "a" (.NewCallExpr "A" []),
     .BinaryExpression ⟨Dot, "."⟩ (.IdentifierExpression "a")
       (.CallExpression "get" [])])) = some (.CometInt 5) := rfl

example : resultObj (Eval 150 NewEvaluator (.RootNode
    [.FunctionStatement "fib" ["n"] (.BlockStatement
       [.IfStatement (.BinaryExpression ⟨LTE, "<="⟩ (.IdentifierExpression "n")
           (.NumberLiteral 1))
          (.BlockStatement [.ReturnStatement (.IdentifierExpression "n")])
          (.BlockStatement []),
        .ReturnStatement (.BinaryExpression ⟨Plus, "+"⟩
          (.CallExpression "fib" [.BinaryExpression ⟨Minus, "-"⟩
             (.IdentifierExpression "n") (.NumberLiteral 1)])
          (.CallExpression "fib" [.BinaryExpression ⟨Minus, "-"⟩
             (.IdentifierExpression "n") (.NumberLiteral 2)]))]),
     .CallExpression "fib" [.NumberLiteral 10]])) = some (.CometInt 55) := rfl

/-! ### Helper lemmas -/

/-- `rangeIter` satisfies the loop equation of the Go source:
test `i <= hi`, run, increment. -/
theorem rangeIter_eq (lo hi : Int) :
    rangeIter lo hi = if lo ≤ hi then lo :: rangeIter (lo + 1) hi else [] := by
  unfold rangeIter
  rcases le_or_lt lo hi with h | h
  · have h1 : (hi + 1 - lo).toNat = (hi + 1 - (lo + 1)).toNat + 1 := by omega
    rw [h1]
    simp [rangeIterAux, h]
  · have h1 : (hi + 1 - lo).toNat = 0 := by omega
    rw [h1]
    simp [rangeIterAux]
    omega

theorem frameLookup_frameUpdate_self (f : Frame) (x : String) (v : CometObject) :
    frameLookup (frameUpdate f x v) x = some v := by
  induction f with
  | nil => simp [frameUpdate, frameLookup]
  | cons kv rest ih =>
    by_cases h : kv.1 = x
    · simp [frameUpdate, frameLookup, h]
    · simp [frameUpdate, frameLookup, h, ih]

theorem frameLookup_frameUpdate_other (f : Frame) (x y : String)
    (v : CometObject) (hxy : x ≠ y) :
    frameLookup (frameUpdate f x v) y = frameLookup f y := by
  induction f with
  | nil => simp [frameUpdate, frameLookup, hxy]
  | cons kv rest ih =>
    by_cases h : kv.1 = x
    · simp [frameUpdate, frameLookup, h, hxy]
    · simp [frameUpdate, frameLookup, h, ih]

theorem frameUpdate_keys (f : Frame) (x : String) (v : CometObject)
    (h : (frameLookup f x).isSome) :
    (frameUpdate f x v).map Prod.fst = f.map Prod.fst := by
  induction f with
  | nil => simp [frameLookup] at h
  | cons kv rest ih =>
    by_cases hk : kv.1 = x
    · simp [frameUpdate, hk]
    · simp [frameLookup, hk] at h
      simp [frameUpdate, hk, ih h]

theorem rangeIterAux_length (n : Nat) : ∀ lo : Int, (rangeIterAux n lo).length = n := by
  induction n with
  | zero => intro lo; simp [rangeIterAux]
  | succ n ih => intro lo; simp [rangeIterAux, ih]

theorem rangeIter_length (lo hi : Int) :
    ((rangeIter lo hi).length : Int) = max 0 (hi - lo + 1) := by
  unfold rangeIter
  rw [rangeIterAux_length]
  omega

theorem mem_rangeIterAux (n : Nat) :
    ∀ (lo i : Int), i ∈ rangeIterAux n lo ↔ lo ≤ i ∧ i < lo + n := by
  induction n with
  | zero => intro lo i; simp [rangeIterAux]
  | succ n ih =>
    intro lo i
    simp only [rangeIterAux, List.mem_cons, ih]
    omega

theorem mem_rangeIter (lo hi i : Int) :
    i ∈ rangeIter lo hi ↔ lo ≤ i ∧ i ≤ hi := by
  unfold rangeIter
  rw [mem_rangeIterAux]
  omega

theorem wrap64_bounds (n : Int) :
    MinInt64 ≤ wrap64 n ∧ wrap64 n ≤ MaxInt64 := by
  simp only [wrap64, MinInt64, MaxInt64]
  omega

theorem wrap64_eq_self (n : Int) (h1 : MinInt64 ≤ n) (h2 : n ≤ MaxInt64) :
    wrap64 n = n := by
  simp only [wrap64, MinInt64, MaxInt64] at *
  omega

theorem rangeIter_empty (lo hi : Int) (h : hi < lo) : rangeIter lo hi = [] := by
  unfold rangeIter
  rw [show (hi + 1 - lo).toNat = 0 by omega]
  rfl

/-- `goForIter` satisfies the loop equation of the Go source with the
wrapping `int64` increment: test `i <= hi`, run, store `wrap64 (i + 1)`. -/
theorem goForIter_eq (lo hi : Int) :
    goForIter lo hi
      = (if lo ≤ hi
         then Option.map (fun l => lo :: l) (goForIter (wrap64 (lo + 1)) hi)
         else some []) := by
  have hw := wrap64_bounds (lo + 1)
  unfold goForIter
  by_cases h1 : lo > hi
  · have hn : ¬ lo ≤ hi := by omega
    rw [if_pos h1, if_neg hn]
  · have hy : lo ≤ hi := by omega
    rw [if_neg h1, if_pos hy]
    by_cases h2 : MaxInt64 ≤ hi
    · have hn3 : ¬ wrap64 (lo + 1) > hi := by omega
      rw [if_pos h2, if_neg hn3, if_pos h2]
      rfl
    · rw [if_neg h2]
      by_cases h3 : wrap64 (lo + 1) > hi
      · rw [if_pos h3, rangeIter_empty _ _ (by omega)]
        rfl
      · rw [if_neg h3, if_neg h2]
        have hw2 : wrap64 (wrap64 (lo + 1) + 1) = wrap64 (lo + 1) + 1 := by
          apply wrap64_eq_self
          · simp only [MinInt64, MaxInt64] at *
            omega
          · simp only [MinInt64, MaxInt64] at *
            omega
        rw [hw2, rangeIter_eq (wrap64 (lo + 1)) hi, if_pos (by omega)]
        rfl

/-- For `int64`-representable bounds below `MaxInt64`, no increment of the
loop counter ever wraps and the iteration sequence is the plain inclusive
interval. -/
theorem goForIter_in_range (lo hi : Int) (h1 : MinInt64 ≤ lo)
    (h2 : hi < MaxInt64) : goForIter lo hi = some (rangeIter lo hi) := by
  unfold goForIter
  by_cases h3 : lo > hi
  · rw [if_pos h3, rangeIter_empty _ _ (by omega)]
  · have hn : ¬ MaxInt64 ≤ hi := by omega
    rw [if_neg h3, if_neg hn]
    have hwlo : wrap64 (lo + 1) = lo + 1 := by
      apply wrap64_eq_self
      · simp only [MinInt64, MaxInt64] at *
        omega
      · simp only [MinInt64, MaxInt64] at *
        omega
    rw [hwlo, rangeIter_eq lo hi, if_pos (by omega)]

/-- When the upper bound is at least `MaxInt64` and the loop is entered,
every wrapped `int64` counter value satisfies the test and the loop never
exits. -/
theorem goForIter_diverges (lo hi : Int) (h1 : lo ≤ hi)
    (h2 : MaxInt64 ≤ hi) : goForIter lo hi = none := by
  unfold goForIter
  rw [if_neg (by omega), if_pos h2]

theorem Eval_zero (st : EvalState) (node : Node) : Eval 0 st node = .timeout := rfl

theorem Eval_number (fuel : Nat) (st : EvalState) (v : Int) :
    Eval (fuel + 1) st (.NumberLiteral v) = .ok (.CometInt v) st := rfl

theorem Eval_boolean (fuel : Nat) (st : EvalState) (b : Bool) :
    Eval (fuel + 1) st (.BooleanLiteral b)
      = .ok (if b then TrueObject else FalseObject) st := rfl

theorem Eval_string (fuel : Nat) (st : EvalState) (v : String) :
    Eval (fuel + 1) st (.StringLiteral v)
      = .ok (.CometStr v (v.utf8ByteSize : Int)) st := rfl

theorem Eval_root (fuel : Nat) (st : EvalState) (stmts : List Node) :
    Eval (fuel + 1) st (.RootNode stmts) = evalRootNode (Eval fuel) st stmts := rfl

theorem Eval_block (fuel : Nat) (st : EvalState) (stmts : List Node) :
    Eval (fuel + 1) st (.BlockStatement stmts)
      = evalStatements (Eval fuel) st stmts := rfl

theorem Eval_prefix (fuel : Nat) (st : EvalState) (op : Token) (right : Node) :
    Eval (fuel + 1) st (.PrefixExpression op right)
      = evalPrefixExpression (Eval fuel) st op right := rfl

theorem Eval_binary (fuel : Nat) (st : EvalState) (op : Token) (l r : Node) :
    Eval (fuel + 1) st (.BinaryExpression op l r)
      = evalBinaryExpression (Eval fuel) st op l r := rfl

theorem Eval_paren (fuel : Nat) (st : EvalState) (e : Node) :
    Eval (fuel + 1) st (.ParenthesisedExpression e) = Eval fuel st e := rfl

theorem Eval_array (fuel : Nat) (st : EvalState) (elements : List Node) :
    Eval (fuel + 1) st (.ArrayLiteral elements)
      = evalArrayElements (Eval fuel) st elements := rfl

theorem Eval_ifStmt (fuel : Nat) (st : EvalState) (t thenB elseB : Node) :
    Eval (fuel + 1) st (.IfStatement t thenB elseB)
      = evalConditional (Eval fuel) st t thenB elseB := rfl

theorem Eval_return (fuel : Nat) (st : EvalState) (e : Node) :
    Eval (fuel + 1) st (.ReturnStatement e)
      = (match Eval fuel st e with
         | .ok result st1 =>
           if isError result then .ok result st1
           else .ok (.CometReturnWrapper result) st1
         | .panicked m => .panicked m
         | .timeout => .timeout) := rfl

theorem Eval_decl (fuel : Nat) (st : EvalState) (x : String) (e : Node) :
    Eval (fuel + 1) st (.DeclarationStatement x e)
      = evalDeclareStatement (Eval fuel) st x e := rfl

theorem Eval_ident (fuel : Nat) (st : EvalState) (x : String) :
    Eval (fuel + 1) st (.IdentifierExpression x) = evalIdentifier st x := rfl

theorem Eval_funcStmt (fuel : Nat) (st : EvalState) (name : String)
    (ps : List String) (block : Node) :
    Eval (fuel + 1) st (.FunctionStatement name ps block)
      = registerFunc st name ps block := rfl

theorem Eval_call (fuel : Nat) (st : EvalState) (name : String)
    (args : List Node) :
    Eval (fuel + 1) st (.CallExpression name args)
      = (match evalCallExpression (Eval fuel) st name args with
         | .ok result st1 => .ok (unwrap result) st1
         | .panicked m => .panicked m
         | .timeout => .timeout) := rfl

theorem Eval_assign (fuel : Nat) (st : EvalState) (x : String) (v : Node) :
    Eval (fuel + 1) st (.AssignExpression x v)
      = EvalAssignExpression (Eval fuel) st x v := rfl

theorem Eval_index (fuel : Nat) (st : EvalState) (t i : Node) :
    Eval (fuel + 1) st (.IndexAccess t i)
      = evalArrayAccess (Eval fuel) st t i := rfl

theorem Eval_forStmt (fuel : Nat) (st : EvalState) (k v : String) (r b : Node) :
    Eval (fuel + 1) st (.ForStatement k v r b)
      = (match evalForStatement (Eval fuel) st k v r b with
         | .ok result st1 => .ok (unwrap result) st1
         | .panicked m => .panicked m
         | .timeout => .timeout) := rfl

theorem Eval_structDecl (fuel : Nat) (st : EvalState) (name : String)
    (methods : List (String × List String × Node)) :
    Eval (fuel + 1) st (.StructDeclarationStatement name methods)
      = evalStructDecl st name methods := rfl

theorem Eval_newCall (fuel : Nat) (st : EvalState) (typeName : String)
    (args : List Node) :
    Eval (fuel + 1) st (.NewCallExpr typeName args)
      = evalNewCall (Eval fuel) st typeName args := rfl

/-- Helper: every `ok` outcome of `evalForStatement` carries Nop (the
loop discards the body's results, and the only non-abort exit returns
`NopInstance`). -/
theorem evalForStatement_ok_nop (eval : EvalFn) (st : EvalState)
    (k v : String) (r b : Node) (obj : CometObject) (st1 : EvalState)
    (h : evalForStatement eval st k v r b = .ok obj st1) : obj = NopInstance := by
  unfold evalForStatement at h
  split at h
  · split at h
    · split at h
      · exact absurd h (by simp)
      · dsimp only [] at h
        split at h
        · injection h with h1 h2
          exact h1.symm
        · exact absurd h (by simp)
        · exact absurd h (by simp)
    · exact absurd h (by simp)
  · exact absurd h (by simp)
  · exact absurd h (by simp)

/-- Helper: every `ok` outcome of a `ForStatement` node is Nop. -/
theorem Eval_forStmt_ok_nop (fuel : Nat) (st : EvalState) (k v : String)
    (r b : Node) (obj : CometObject) (st1 : EvalState)
    (h : Eval fuel st (.ForStatement k v r b) = .ok obj st1) :
    obj = NopInstance := by
  cases fuel with
  | zero => rw [Eval_zero] at h; exact absurd h (by simp)
  | succ fuel =>
    rw [Eval_forStmt] at h
    cases hfor : evalForStatement (Eval fuel) st k v r b with
    | ok result st2 =>
      rw [hfor] at h
      have hr := evalForStatement_ok_nop (Eval fuel) st k v r b result st2 hfor
      subst hr
      simp only [ResOf.ok.injEq] at h
      rw [← h.1]
      rfl
    | panicked m => rw [hfor] at h; exact absurd h (by simp)
    | timeout => rw [hfor] at h; exact absurd h (by simp)

/-- Helper: the method-argument loop never looks past the first
`params.length` arguments — extra arguments are ignored, not evaluated. -/
theorem evalMethodArgs_take (eval : EvalFn) :
    ∀ (ps : List String) (st : EvalState) (args : List Node),
    evalMethodArgs eval st ps args
      = evalMethodArgs eval st ps (args.take ps.length) := by
  intro ps
  induction ps with
  | nil => intro st args; simp [evalMethodArgs]
  | cons p ps ih =>
    intro st args
    cases args with
    | nil => simp
    | cons a rest =>
      simp only [List.length_cons, List.take_succ_cons, evalMethodArgs]
      cases eval st a with
      | ok v st1 =>
        by_cases hv : typeOf v = ErrorType
        · simp [hv]
        · simp [hv, ih st1 rest]
      | panicked m => simp
      | timeout => simp

/-- Helper: folding parameter bindings over a frame keeps any binding whose
name none of the parameters uses. -/
theorem foldl_frameUpdate_lookup (x : String) (w : CometObject) :
    ∀ (ps : List (String × CometObject)) (acc : Frame),
    frameLookup acc x = some w →
    (∀ p ∈ ps, p.1 ≠ x) →
    frameLookup (ps.foldl (fun f p => frameUpdate f p.1 p.2) acc) x = some w := by
  intro ps
  induction ps with
  | nil => intro acc hacc _; simpa using hacc
  | cons p ps ih =>
    intro acc hacc hns
    simp only [List.foldl_cons]
    refine ih (frameUpdate acc p.1 p.2) ?_ (fun q hq => hns q (by simp [hq]))
    rw [frameLookup_frameUpdate_other acc p.1 x p.2 (hns p (by simp))]
    exact hacc

/-- Helper: the call-site frame of a method call binds `this` to the
receiver (as long as no declared parameter shadows the name `this`). -/
theorem buildMethodFrame_this (ref : Nat) (ps : List (String × CometObject))
    (h : ∀ p ∈ ps, p.1 ≠ "this") :
    frameLookup (buildMethodFrame ref ps) "this" = some (.CometInstance ref) := by
  unfold buildMethodFrame
  exact foldl_frameUpdate_lookup "this" (.CometInstance ref) ps
    (frameUpdate [] "this" (.CometInstance ref))
    (frameLookup_frameUpdate_self [] "this" (.CometInstance ref)) h

/-- Helper: one evaluation of the counting body `c = c + 1` under a loop
frame that does not bind `c`: it increments the global `c` and returns the
stored value. -/
theorem counterBody_eval (f : Frame) (n : Int) (fuel : Nat)
    (hf : frameLookup f "c" = none) :
    Eval (fuel + 4) (counterState f n) counterBody
      = .ok (.CometInt (n + 1)) (counterState f (n + 1)) := by
  have hlook : ScopeLookup (counterState f n).scope "c" = some (.CometInt n) := by
    simp [counterState, ScopeLookup, hf, frameLookup]
  have hid : Eval (fuel + 1) (counterState f n) (.IdentifierExpression "c")
      = .ok (.CometInt n) (counterState f n) := by
    rw [Eval_ident]
    unfold evalIdentifier
    rw [hlook]
  have hrhs : Eval (fuel + 2) (counterState f n)
      (.BinaryExpression ⟨Plus, "+"⟩ (.IdentifierExpression "c")
        (.NumberLiteral 1))
      = .ok (.CometInt (n + 1)) (counterState f n) := by
    show Eval (fuel + 1 + 1) _ _ = _
    rw [Eval_binary]
    simp only [evalBinaryExpression, hid, Eval_number]
    simp +decide [isError, typeOf, ErrorType, IntType, BoolType, StrType,
      binaryDispatch, applyOp]
  have hassign : Eval (fuel + 3) (counterState f n)
      (.AssignExpression "c" (.BinaryExpression ⟨Plus, "+"⟩
        (.IdentifierExpression "c") (.NumberLiteral 1)))
      = .ok (.CometInt (n + 1)) (counterState f (n + 1)) := by
    show Eval (fuel + 2 + 1) _ _ = _
    rw [Eval_assign]
    unfold EvalAssignExpression
    rw [hlook, hrhs]
    have hstore : (ScopeStore (counterState f n).scope "c"
        (.CometInt (n + 1))).1 = (counterState f (n + 1)).scope := by
      simp [counterState, ScopeStore, hf, frameLookup, frameUpdate]
    simp only [unwrap]
    rw [hstore]
    rfl
  show Eval (fuel + 3 + 1) _ _ = _
  unfold counterBody
  rw [Eval_block]
  simp only [evalStatements, hassign]

/-- Helper: the counting loop adds one to `c` per element of the
iteration list (the loop frame keeps the shape `kvFrame`). -/
theorem counterLoop (l : List Int) :
    ∀ (j n : Int), ∃ j2 : Int,
      forLoopIter (Eval 10) "k" "__empty__" counterBody
          (counterState (kvFrame j) n) l
        = .ok () (counterState (kvFrame j2) (n + l.length)) := by
  induction l with
  | nil =>
    intro j n
    exact ⟨j, by simp [forLoopIter]⟩
  | cons i rest ih =>
    intro j n
    obtain ⟨j2, hj2⟩ := ih i (n + 1)
    refine ⟨j2, ?_⟩
    have hiter : iterState "k" "__empty__" i (counterState (kvFrame j) n)
        = counterState (kvFrame i) n := by
      simp +decide [iterState, counterState, ScopeDeclare, kvFrame, frameUpdate]
    have hbody : Eval 10 (counterState (kvFrame i) n) counterBody
        = .ok (.CometInt (n + 1)) (counterState (kvFrame i) (n + 1)) := by
      have h := counterBody_eval (kvFrame i) n 6 (by simp +decide [kvFrame, frameLookup])
      norm_num at h
      exact h
    simp only [forLoopIter, forLoopStep, hiter, hbody]
    rw [hj2]
    have harith : n + 1 + (rest.length : Int)
        = n + ((rest.length : Int) + 1) := by ring
    simp [harith]

/-- Helper: for bounds that avoid the `int64` wrap-around, the counting
program evaluates to the length of the iteration list: `c` ends up
incremented once per loop iteration. -/
theorem counterProgram_eval (L H : Int) (hL : MinInt64 ≤ L)
    (hH : H < MaxInt64) :
    Eval 12 NewEvaluator (counterProgram L H)
      = .ok (.CometInt ((rangeIter L H).length : Int))
          { NewEvaluator with
              scope := [[("c", .CometInt ((rangeIter L H).length : Int))]] } := by
  have h1 : Eval 11 NewEvaluator (.DeclarationStatement "c" (.NumberLiteral 0))
      = .ok (.CometInt 0) { NewEvaluator with scope := [[("c", .CometInt 0)]] } := by
    rfl
  have hrange : Eval 10 { NewEvaluator with scope := [[("c", .CometInt 0)]] }
      (.BinaryExpression ⟨DotDot, ".."⟩ (.NumberLiteral L) (.NumberLiteral H))
      = .ok (.CometRange L H)
          { NewEvaluator with scope := [[("c", .CometInt 0)]] } := by
    show Eval (8 + 1 + 1) _ _ = _
    rw [Eval_binary]
    simp only [evalBinaryExpression, Eval_number]
    simp +decide [isError, typeOf, ErrorType, IntType, BoolType, StrType,
      binaryDispatch, applyOp]
  have hloop : ∃ g : Frame,
      forLoopIter (Eval 10) "k" "__empty__" counterBody
          (counterState [] 0) (rangeIter L H)
        = .ok () { NewEvaluator with
            scope := [g, [("c", .CometInt ((rangeIter L H).length : Int))]] }
      ∧ frameErase (frameErase g "k") "__empty__" = [] := by
    cases hr : rangeIter L H with
    | nil =>
      refine ⟨[], ?_, by rfl⟩
      simp [forLoopIter, counterState]
    | cons i rest =>
      have hiter : iterState "k" "__empty__" i (counterState [] 0)
          = counterState (kvFrame i) 0 := by
        simp +decide [iterState, counterState, ScopeDeclare, kvFrame, frameUpdate]
      have hbody : Eval 10 (counterState (kvFrame i) 0) counterBody
          = .ok (.CometInt 1) (counterState (kvFrame i) 1) := by
        have h := counterBody_eval (kvFrame i) 0 6 (by simp +decide [kvFrame, frameLookup])
        norm_num at h
        exact h
      obtain ⟨j2, hj2⟩ := counterLoop rest i 1
      refine ⟨kvFrame j2, ?_, by simp +decide [kvFrame, frameErase]⟩
      simp only [forLoopIter, forLoopStep, hiter, hbody]
      rw [hj2]
      have harith : (1 : Int) + (rest.length : Int)
          = ((rest.length : Int) + 1) := by ring
      simp [counterState, harith]
  obtain ⟨g, hg, hgerase⟩ := hloop
  have hfor : Eval 11 { NewEvaluator with scope := [[("c", .CometInt 0)]] }
      (.ForStatement "k" "__empty__"
        (.BinaryExpression ⟨DotDot, ".."⟩ (.NumberLiteral L) (.NumberLiteral H))
        counterBody)
      = .ok NopInstance
          { NewEvaluator with
              scope := [[("c", .CometInt ((rangeIter L H).length : Int))]] } := by
    show Eval (10 + 1) _ _ = _
    rw [Eval_forStmt]
    unfold evalForStatement
    rw [hrange]
    have hpush : ({ NewEvaluator with scope := [[("c", .CometInt 0)]] } : EvalState).scope
        = [[("c", .CometInt 0)]] := rfl
    dsimp only [hpush]
    rw [goForIter_in_range L H hL hH]
    dsimp only []
    have hg2 : forLoopIter (Eval 10) "k" "__empty__" counterBody
        { scope := [[], [("c", .CometInt 0)]], types := NewEvaluator.types,
          builtins := NewEvaluator.builtins, heap := NewEvaluator.heap }
        (rangeIter L H)
        = .ok () { NewEvaluator with
            scope := [g, [("c", .CometInt ((rangeIter L H).length : Int))]] } := by
      have : counterState [] 0
          = { scope := [[], [("c", .CometInt 0)]], types := NewEvaluator.types,
              builtins := NewEvaluator.builtins, heap := NewEvaluator.heap } := rfl
      rw [← this]
      exact hg
    rw [hg2]
    simp [ScopeClear, hgerase, unwrap, NopInstance]
  have hident : Eval 11 { NewEvaluator with
      scope := [[("c", .CometInt ((rangeIter L H).length : Int))]] }
      (.IdentifierExpression "c")
      = .ok (.CometInt ((rangeIter L H).length : Int))
          { NewEvaluator with
              scope := [[("c", .CometInt ((rangeIter L H).length : Int))]] } := by
    rfl
  show Eval (11 + 1) _ _ = _
  unfold counterProgram
  rw [Eval_root]
  simp only [evalRootNode, h1, hfor, hident]
  simp [NopInstance]

/-! ### Claim C2 -/

/-- C2: the claim says `Parse()` returns a non-null root for every input,
the empty string included.  The code disagrees: `parser.New` calls
`NewLexer`, which evaluates `src[0]`, and Go string indexing on the empty
string is a runtime panic, so `Parse("")` aborts before reading a single
token. -/
theorem comet_C2_newlexer_empty_panics :
    NewLexer "" = .error "runtime error: index out of range [0] with length 0" := by
  rfl

/-! ### Claim C4 -/

/-- C4 counterexample: the claim says `/` on two Ints yields an Int, but
`applyOp` performs the host division unguarded — at divisor 0 it panics
instead of producing any value. -/
theorem comet_C4_counterexample :
    applyOp Div (.CometInt 1) (.CometInt 0)
      = .error "runtime error: integer divide by zero" := by
  rfl

/-- C4 (amended): on two Ints, `+ - *` yield the expected Int, `/` yields
the truncated quotient provided the divisor is non-zero (a zero divisor is
a host panic), every comparison yields one of the two Bool singletons, and
`..` yields a Range whose bounds are the operands and whose iteration (the
`for` loop variable sequence) is exactly the inclusive interval. -/
theorem comet_C4_amended (a b : Int) :
    applyOp Plus (.CometInt a) (.CometInt b) = .ok (.CometInt (a + b))
    ∧ applyOp Minus (.CometInt a) (.CometInt b) = .ok (.CometInt (a - b))
    ∧ applyOp Mul (.CometInt a) (.CometInt b) = .ok (.CometInt (a * b))
    ∧ (b ≠ 0 → applyOp Div (.CometInt a) (.CometInt b)
        = .ok (.CometInt (Int.tdiv a b)))
    ∧ applyOp EQ (.CometInt a) (.CometInt b) = .ok (boolValue (decide (a = b)))
    ∧ applyOp NEQ (.CometInt a) (.CometInt b) = .ok (boolValue (decide (a ≠ b)))
    ∧ applyOp LT (.CometInt a) (.CometInt b) = .ok (boolValue (decide (a < b)))
    ∧ applyOp LTE (.CometInt a) (.CometInt b) = .ok (boolValue (decide (a ≤ b)))
    ∧ applyOp GT (.CometInt a) (.CometInt b) = .ok (boolValue (decide (b < a)))
    ∧ applyOp GTE (.CometInt a) (.CometInt b) = .ok (boolValue (decide (b ≤ a)))
    ∧ (∀ c : Bool, boolValue c = TrueObject ∨ boolValue c = FalseObject)
    ∧ applyOp DotDot (.CometInt a) (.CometInt b) = .ok (.CometRange a b)
    ∧ (∀ i : Int, i ∈ rangeIter a b ↔ a ≤ i ∧ i ≤ b) := by
  refine ⟨rfl, ?_, ?_, ?_, ?_, ?_, ?_, ?_, ?_, ?_, ?_, ?_, ?_⟩
  · rfl
  · rfl
  · intro hb
    simp only [applyOp]
    rw [if_neg (by decide), if_neg (by decide), if_neg (by decide), if_neg hb]
    simp
  · rfl
  · rfl
  · rfl
  · rfl
  · rfl
  · rfl
  · intro c; cases c
    · right; rfl
    · left; rfl
  · rfl
  · intro i; exact mem_rangeIter a b i

/-- C4 witness: the amended statement at `a = 7`, `b = 3`. -/
theorem comet_C4_witness :
    applyOp Div (.CometInt 7) (.CometInt 3) = .ok (.CometInt 2)
    ∧ applyOp Plus (.CometInt 7) (.CometInt 3) = .ok (.CometInt 10)
    ∧ applyOp DotDot (.CometInt 7) (.CometInt 3) = .ok (.CometRange 7 3) := by
  have h := comet_C4_amended 7 3
  refine ⟨?_, ?_, ?_⟩
  · have hd := h.2.2.2.1 (by norm_num)
    rw [hd]
    rfl
  · have hp := h.1
    rw [hp]
    norm_num
  · exact h.2.2.2.2.2.2.2.2.2.2.2.1

/-! ### Claim C10 -/

/-- C10: the cached `Size` of a `CometStr` is not always the length of its
text.  `ToString` of the Bool `false` yields the five-byte text `"false"`
with a cached size of 4, and both `Str + Str` concatenation and the mixed
`Str + other` coercion path propagate the wrong size by summing the cached
sizes of the operands. -/
theorem comet_C10_size_invariant :
    ToString FalseObject = .ok (.CometStr "false" 4)
    ∧ (("false" : String).utf8ByteSize : Int) = 5
    ∧ (4 : Int) ≠ 5
    ∧ (∀ (s1 s2 : String) (z1 z2 : Int),
        applyStrOp Plus (.CometStr s1 z1) (.CometStr s2 z2)
          = .ok (.CometStr (s1 ++ s2) (z1 + z2)))
    ∧ (∀ (s : String) (z : Int),
        binaryDispatch ⟨Plus, "+"⟩ (.CometStr s z) FalseObject
          = .ok (.CometStr (s ++ "false") (z + 4))) := by
  refine ⟨rfl, by rfl, by norm_num, ?_, ?_⟩
  · intro s1 s2 z1 z2
    rfl
  · intro s z
    rfl

/-! ### Claim C9 -/

/-- C9: integer division is unguarded.  Evaluating `a / 0` never returns a
Comet Error value: the evaluator reaches the host division in `applyOp`,
which panics on a zero divisor and aborts evaluation. -/
theorem comet_C9_division_unguarded (a : Int) (fuel : Nat) (st : EvalState) :
    Eval (fuel + 2) st (.BinaryExpression ⟨Div, "/"⟩ (.NumberLiteral a)
        (.NumberLiteral 0))
      = .panicked "runtime error: integer divide by zero"
    ∧ ∀ (msg : String) (st2 : EvalState),
        Eval (fuel + 2) st (.BinaryExpression ⟨Div, "/"⟩ (.NumberLiteral a)
            (.NumberLiteral 0))
          ≠ .ok (.CometError msg) st2 := by
  have h : Eval (fuel + 2) st (.BinaryExpression ⟨Div, "/"⟩ (.NumberLiteral a)
      (.NumberLiteral 0)) = .panicked "runtime error: integer divide by zero" := by
    show Eval (fuel + 1 + 1) st _ = _
    rw [Eval_binary]
    simp only [evalBinaryExpression, Eval_number, binaryDispatch, applyOp,
      isError, typeOf]
    simp +decide [IntType, ErrorType, BoolType, StrType, Div, Dot, Plus,
      Minus, Mul]
  refine ⟨h, ?_⟩
  intro msg st2
  rw [h]
  simp

/-! ### Claim C8 -/

/-- C8: when the two operand kinds differ and neither is a Str, `==` is the
FALSE singleton, `!=` is the TRUE singleton, and every other operator is the
Error "Cannot apply operator OP on given types L and R"; in particular
`1 + true` evaluates to the Error with message
"Cannot apply operator + on given types INTEGER and BOOLEAN". -/
theorem comet_C8_different_kinds :
    (∀ (op : Token) (l r : CometObject),
        typeOf l ≠ typeOf r → typeOf l ≠ StrType → typeOf r ≠ StrType →
        binaryDispatch op l r =
          if op.tokenType = EQ then .ok FalseObject
          else if op.tokenType = NEQ then .ok TrueObject
          else .ok (CreateError ("Cannot apply operator " ++ op.literal
            ++ " on given types " ++ typeOf l ++ " and " ++ typeOf r)))
    ∧ resultObj (Eval 5 NewEvaluator (.BinaryExpression ⟨Plus, "+"⟩
          (.NumberLiteral 1) (.BooleanLiteral true)))
        = some (.CometError
            "Cannot apply operator + on given types INTEGER and BOOLEAN") := by
  constructor
  · intro op l r hne hls hrs
    unfold binaryDispatch
    rw [if_neg (fun hc => hne (hc.1.trans hc.2.symm)),
      if_neg (fun hc => hne (hc.1.trans hc.2.symm)),
      if_neg (fun hc => hls hc.1),
      if_neg (fun hc => Or.elim hc hls hrs)]
    by_cases heq : op.tokenType = EQ
    · rw [if_pos ⟨hne, heq⟩, if_pos heq]
    · rw [if_neg (fun hc => heq hc.2), if_neg heq]
      by_cases hneq : op.tokenType = NEQ
      · rw [if_pos ⟨hne, hneq⟩, if_pos hneq]
      · rw [if_neg (fun hc => hneq hc.2), if_neg hneq]
  · rfl

/-- C8 witness: the general statement instantiated at `<` on
`1` and `true` (kinds INTEGER and BOOLEAN, no Str involved). -/
theorem comet_C8_witness :
    binaryDispatch ⟨LT, "<"⟩ (.CometInt 1) (.CometBool true)
      = .ok (CreateError
          "Cannot apply operator < on given types INTEGER and BOOLEAN") := by
  have h := comet_C8_different_kinds.1 ⟨LT, "<"⟩ (.CometInt 1) (.CometBool true)
    (by decide) (by decide) (by decide)
  rw [h]
  rfl

/-! ### Claim C6 -/

/-- C6: assigning to an undeclared name yields the not-bounded Error with
every scope unchanged; assigning to a declared name stores the (unwrapped)
right-hand value into the nearest enclosing frame that already holds the
name — no frame gains or loses a binding — and the assign expression
evaluates to the stored value, which the updated frame then holds. -/
theorem comet_C6_assign :
    (∀ (fuel : Nat) (st : EvalState) (x : String) (e : Node),
        ScopeLookup st.scope x = none →
        Eval (fuel + 1) st (.AssignExpression x e)
          = .ok (CreateError ("Identifier (" ++ x
              ++ ") is not bounded to any value, have you tried declaring it?"))
              st)
    ∧ (∀ (fuel : Nat) (st : EvalState) (x : String) (e : Node)
          (w v : CometObject) (st1 : EvalState),
        ScopeLookup st.scope x = some w →
        Eval fuel st e = .ok v st1 →
        Eval (fuel + 1) st (.AssignExpression x e)
          = .ok (unwrap v)
              { st1 with scope := (ScopeStore st1.scope x (unwrap v)).1 })
    ∧ (∀ (fs1 : List Frame) (f : Frame) (fs2 : List Frame) (x : String)
          (v : CometObject),
        (∀ g ∈ fs1, frameLookup g x = none) →
        (frameLookup f x).isSome →
        (ScopeStore (fs1 ++ f :: fs2) x v).1 = fs1 ++ frameUpdate f x v :: fs2)
    ∧ (∀ (chain : ScopeChain) (x : String) (v : CometObject),
        ((ScopeStore chain x v).1).map (fun f => f.map Prod.fst)
          = chain.map (fun f => f.map Prod.fst))
    ∧ (∀ (f : Frame) (x : String) (v : CometObject),
        frameLookup (frameUpdate f x v) x = some v) := by
  refine ⟨?_, ?_, ?_, ?_, ?_⟩
  · intro fuel st x e h
    rw [Eval_assign]
    simp only [EvalAssignExpression, h]
  · intro fuel st x e w v st1 hlook heval
    rw [Eval_assign]
    simp only [EvalAssignExpression, hlook, heval]
  · intro fs1 f fs2 x v hnone hsome
    induction fs1 with
    | nil => simp [ScopeStore, hsome]
    | cons g gs ih =>
      have hg : frameLookup g x = none := hnone g (by simp)
      have ihh := ih (fun g2 hg2 => hnone g2 (by simp [hg2]))
      simp [ScopeStore, hg, ihh]
  · intro chain x v
    induction chain with
    | nil => simp [ScopeStore]
    | cons f rest ih =>
      by_cases hf : (frameLookup f x).isSome
      · simp [ScopeStore, hf, frameUpdate_keys f x v hf]
      · simp [ScopeStore, hf, ih]
  · intro f x v
    exact frameLookup_frameUpdate_self f x v

/-- C6 witness: in a chain with an inner frame binding `y` and the global
frame binding `x`, `x = 5` stores into the global frame (no new inner
binding) and evaluates to 5, while `z = 5` is the not-bounded Error with
the state unchanged. -/
theorem comet_C6_witness :
    Eval 3 assignFixture (.AssignExpression "x" (.NumberLiteral 5))
      = .ok (.CometInt 5)
          { assignFixture with
              scope := [[("y", .CometInt 1)], [("x", .CometInt 5)]] }
    ∧ Eval 3 assignFixture (.AssignExpression "z" (.NumberLiteral 5))
      = .ok (CreateError
          "Identifier (z) is not bounded to any value, have you tried declaring it?")
          assignFixture := by
  constructor
  · have h := comet_C6_assign.2.1 2 assignFixture "x" (.NumberLiteral 5)
      (.CometInt 0) (.CometInt 5) assignFixture (by rfl) (by rfl)
    rw [h]
    rfl
  · have h := comet_C6_assign.1 2 assignFixture "z" (.NumberLiteral 5) (by rfl)
    rw [h]
    rfl

/-! ### Claim C1 -/

/-- C1 counterexample: the claim says an Error produced by an element of an
array literal is returned unchanged by the enclosing array literal.  In
fact `evalArrayElements` performs no error check: evaluating `[x]` with `x`
unbound yields an Array containing the Error, not the Error itself. -/
theorem comet_C1_counterexample :
    Eval 10 NewEvaluator (.IdentifierExpression "x")
      = .ok (.CometError
          "Identifier (x) is not bounded to any value, have you tried declaring it?")
          NewEvaluator
    ∧ Eval 10 NewEvaluator (.ArrayLiteral [.IdentifierExpression "x"])
      = .ok (.CometArray 1
          [.CometError
            "Identifier (x) is not bounded to any value, have you tried declaring it?"])
          NewEvaluator
    ∧ CometObject.CometArray 1
        [.CometError
          "Identifier (x) is not bounded to any value, have you tried declaring it?"]
      ≠ CometObject.CometError
          "Identifier (x) is not bounded to any value, have you tried declaring it?" := by
  refine ⟨rfl, rfl, ?_⟩
  simp

/-- C1 (amended): Error values short-circuit through binary operand
evaluation and block statement lists, but not through the three cited
constructs — an Error in the test of an if statement is replaced by a new
Error built from the test value's display form, an Error from an element of
an array literal is stored inside the resulting Array which is returned
normally, and an Error produced inside a for-loop body is discarded (every
non-aborting for statement evaluates to Nop). -/
theorem comet_C1_amended :
    (∀ (fuel : Nat) (st : EvalState) (op : Token) (l r : Node) (msg : String)
        (st1 : EvalState),
        Eval fuel st l = .ok (.CometError msg) st1 →
        Eval (fuel + 1) st (.BinaryExpression op l r)
          = .ok (.CometError msg) st1)
    ∧ (∀ (fuel : Nat) (st : EvalState) (s : Node) (rest : List Node)
          (msg : String) (st1 : EvalState),
        Eval fuel st s = .ok (.CometError msg) st1 →
        Eval (fuel + 1) st (.BlockStatement (s :: rest))
          = .ok (.CometError msg) st1)
    ∧ (∀ (fuel : Nat) (st : EvalState) (t thenB elseB : Node) (msg : String)
          (st1 : EvalState),
        Eval fuel st t = .ok (.CometError msg) st1 →
        Eval (fuel + 1) st (.IfStatement t thenB elseB)
          = .ok (CreateError
              ("Test part of the if statement should evaluate to CometBool, evaluated to "
                ++ objToString st1.heap (.CometError msg) ++ " instead")) st1)
    ∧ (∀ (heap : List InstanceData) (msg : String),
        objToString heap (.CometError msg) = "Comet error: \n\n\t" ++ msg)
    ∧ (∀ (fuel : Nat) (st : EvalState) (e : Node) (msg : String)
          (st1 : EvalState),
        Eval fuel st e = .ok (.CometError msg) st1 →
        Eval (fuel + 1) st (.ArrayLiteral [e])
          = .ok (.CometArray 1 [.CometError msg]) st1)
    ∧ (∀ (fuel : Nat) (st : EvalState) (k v : String) (r b : Node)
          (obj : CometObject) (st1 : EvalState),
        Eval fuel st (.ForStatement k v r b) = .ok obj st1 →
        obj = NopInstance)
    ∧ Eval 20 NewEvaluator (.ForStatement "k" "__empty__"
        (.BinaryExpression ⟨DotDot, ".."⟩ (.NumberLiteral 1) (.NumberLiteral 2))
        (.BlockStatement [.IdentifierExpression "zz"]))
      = .ok NopInstance NewEvaluator := by
  refine ⟨?_, ?_, ?_, ?_, ?_, ?_, ?_⟩
  · intro fuel st op l r msg st1 h
    rw [Eval_binary]
    simp only [evalBinaryExpression, h]
    simp +decide [isError, typeOf, ErrorType]
  · intro fuel st s rest msg st1 h
    rw [Eval_block]
    simp only [evalStatements, h]
  · intro fuel st t thenB elseB msg st1 h
    rw [Eval_ifStmt]
    simp only [evalConditional, h]
    simp +decide [typeOf, BoolType, ErrorType]
  · intro heap msg
    simp [objToString]
  · intro fuel st e msg st1 h
    rw [Eval_array]
    simp only [evalArrayElements, evalElementList, h]
    rfl
  · exact Eval_forStmt_ok_nop
  · rfl

/-- C1 witness: the amended statement instantiated with the unbound
identifier `x` as the failing subexpression. -/
theorem comet_C1_witness :
    Eval 3 NewEvaluator (.BinaryExpression ⟨Plus, "+"⟩
        (.IdentifierExpression "x") (.NumberLiteral 1))
      = .ok (.CometError
          "Identifier (x) is not bounded to any value, have you tried declaring it?")
          NewEvaluator
    ∧ Eval 3 NewEvaluator (.IfStatement (.IdentifierExpression "x")
        (.BlockStatement []) (.BlockStatement []))
      = .ok (CreateError
          ("Test part of the if statement should evaluate to CometBool, evaluated to "
            ++ objToString NewEvaluator.heap (.CometError
              "Identifier (x) is not bounded to any value, have you tried declaring it?")
            ++ " instead")) NewEvaluator := by
  constructor
  · exact comet_C1_amended.1 2 NewEvaluator ⟨Plus, "+"⟩
      (.IdentifierExpression "x") (.NumberLiteral 1)
      "Identifier (x) is not bounded to any value, have you tried declaring it?"
      NewEvaluator (by rfl)
  · exact comet_C1_amended.2.2.1 2 NewEvaluator (.IdentifierExpression "x")
      (.BlockStatement []) (.BlockStatement [])
      "Identifier (x) is not bounded to any value, have you tried declaring it?"
      NewEvaluator (by rfl)

/-! ### Claim C3 -/

/-- C3 counterexample: the claim says a return inside a for-loop body still
makes the enclosing function call yield the returned value.  In the program
`func f() { for i in 1..1 { return 5 } return 7 }  f()` the wrapper
produced by `return 5` is discarded with the loop body's result, so the
call yields 7, not 5. -/
theorem comet_C3_counterexample :
    resultObj (Eval 20 NewEvaluator returnInForProgram) = some (.CometInt 7)
    ∧ some (CometObject.CometInt 7) ≠ some (CometObject.CometInt 5) := by
  refine ⟨rfl, ?_⟩
  simp

/-- C3 (amended): a `ReturnWrapper` that reaches a boundary is unwrapped
exactly once — block statement lists pass it through unchanged, the root
and function-call boundaries strip exactly one layer — but a return
executed inside a for-loop body never reaches its boundary: the loop
discards the body's result, so the enclosing call returns as if the return
had not executed (see the counterexample program, which yields 7). -/
theorem comet_C3_amended :
    (∀ (fuel : Nat) (st : EvalState) (s : Node) (rest : List Node)
        (v : CometObject) (st1 : EvalState),
        Eval fuel st s = .ok (.CometReturnWrapper v) st1 →
        Eval (fuel + 1) st (.RootNode (s :: rest)) = .ok v st1)
    ∧ (∀ (fuel : Nat) (st : EvalState) (s : Node) (rest : List Node)
          (v : CometObject) (st1 : EvalState),
        Eval fuel st s = .ok (.CometReturnWrapper v) st1 →
        Eval (fuel + 1) st (.BlockStatement (s :: rest))
          = .ok (.CometReturnWrapper v) st1)
    ∧ (∀ (fuel : Nat) (st : EvalState) (name : String) (args : List Node)
          (v : CometObject) (st1 : EvalState),
        evalCallExpression (Eval fuel) st name args
          = .ok (.CometReturnWrapper v) st1 →
        Eval (fuel + 1) st (.CallExpression name args) = .ok v st1)
    ∧ (∀ (eval : EvalFn) (st : EvalState) (name : String) (ref : Nat)
          (ps : List (String × CometObject)) (object : InstanceData)
          (constructor : FuncData) (v : CometObject) (st1 : EvalState),
        st.heap.get? ref = some object →
        assocLookup object.strct.methods name = some constructor →
        eval { st with scope := buildMethodFrame ref ps :: st.scope }
            constructor.body
          = .ok (.CometReturnWrapper v) st1 →
        callOnObject eval st name ref ps
          = .ok v { st1 with scope := st1.scope.tail })
    ∧ (∀ (fuel : Nat) (st : EvalState) (k v : String) (r b : Node)
          (obj : CometObject) (st1 : EvalState),
        Eval fuel st (.ForStatement k v r b) = .ok obj st1 →
        obj ≠ CometObject.CometReturnWrapper (.CometInt 5))
    ∧ resultObj (Eval 20 NewEvaluator returnInForProgram)
        = some (.CometInt 7) := by
  refine ⟨?_, ?_, ?_, ?_, ?_, ?_⟩
  · intro fuel st s rest v st1 h
    rw [Eval_root]
    simp only [evalRootNode, h]
  · intro fuel st s rest v st1 h
    rw [Eval_block]
    simp only [evalStatements, h]
  · intro fuel st name args v st1 h
    rw [Eval_call]
    simp only [h, unwrap]
  · intro eval st name ref ps object constructor v st1 hheap hmeth hbody
    unfold callOnObject
    simp only [hheap, hmeth, hbody, unwrap]
  · intro fuel st k v r b obj st1 h
    have := Eval_forStmt_ok_nop fuel st k v r b obj st1 h
    subst this
    simp [NopInstance]
  · rfl

/-- C3 witness: the amended root-unwrap conjunct instantiated with a
concrete `return 42` statement. -/
theorem comet_C3_witness :
    Eval 3 NewEvaluator (.RootNode [.ReturnStatement (.NumberLiteral 42)])
      = .ok (.CometInt 42) NewEvaluator := by
  exact comet_C3_amended.1 2 NewEvaluator (.ReturnStatement (.NumberLiteral 42))
    [] (.CometInt 42) NewEvaluator (by rfl)

/-! ### Claim C7 -/

/-- C7: for a method call `obj.m(a1..an)`: a non-Instance (non-Error) left
value is the "Cannot call method ... on none object type" Error; when the
declared parameter count exceeds the supplied argument count the result is
the parameter-count Error; otherwise only the first parameter-count
arguments are evaluated (extras are never visited) and the method body runs
through `callOnObject` in a fresh child scope whose frame binds `this` to
the receiving instance. -/
theorem comet_C7_method_call :
    (∀ (fuel : Nat) (st : EvalState) (lNode : Node) (m : String)
        (args : List Node) (v : CometObject) (st1 : EvalState),
        Eval fuel st lNode = .ok v st1 →
        isError v = false →
        typeOf v ≠ ObjType →
        Eval (fuel + 1) st (.BinaryExpression ⟨Dot, "."⟩ lNode
            (.CallExpression m args))
          = .ok (CreateError ("Cannot call method \x27" ++ m
              ++ "\x27 on none object type")) st1)
    ∧ (∀ (fuel : Nat) (st : EvalState) (lNode : Node) (m : String)
          (args : List Node) (ref : Nat) (inst : InstanceData)
          (method : FuncData) (st1 : EvalState),
        Eval fuel st lNode = .ok (.CometInstance ref) st1 →
        st1.heap.get? ref = some inst →
        inst.strct.GetMethod m = some method →
        method.params.length > args.length →
        Eval (fuel + 1) st (.BinaryExpression ⟨Dot, "."⟩ lNode
            (.CallExpression m args))
          = .ok (CreateError ("Method \x27" ++ method.name
              ++ "\x27 on type \x27" ++ inst.strct.name
              ++ "\x27 expects at least " ++ toString method.params.length
              ++ " parameters, " ++ toString args.length
              ++ " were given")) st1)
    ∧ (∀ (fuel : Nat) (st : EvalState) (lNode : Node) (m : String)
          (args : List Node) (ref : Nat) (inst : InstanceData)
          (method : FuncData) (st1 : EvalState),
        Eval fuel st lNode = .ok (.CometInstance ref) st1 →
        st1.heap.get? ref = some inst →
        inst.strct.GetMethod m = some method →
        method.params.length ≤ args.length →
        Eval (fuel + 1) st (.BinaryExpression ⟨Dot, "."⟩ lNode
            (.CallExpression m args))
          = (match evalMethodArgs (Eval fuel) st1 method.params args with
             | .ok (.ok params) st2 => callOnObject (Eval fuel) st2 m ref params
             | .ok (.error errv) st2 => .ok errv st2
             | .panicked msg => .panicked msg
             | .timeout => .timeout))
    ∧ (∀ (eval : EvalFn) (ps : List String) (st : EvalState)
          (args : List Node),
        evalMethodArgs eval st ps args
          = evalMethodArgs eval st ps (args.take ps.length))
    ∧ (∀ (eval : EvalFn) (st : EvalState) (m : String) (ref : Nat)
          (ps : List (String × CometObject)) (object : InstanceData)
          (method : FuncData),
        st.heap.get? ref = some object →
        assocLookup object.strct.methods m = some method →
        callOnObject eval st m ref ps
          = (match eval { st with scope := buildMethodFrame ref ps :: st.scope }
                method.body with
             | .ok res st1 => .ok (unwrap res) { st1 with scope := st1.scope.tail }
             | .panicked msg => .panicked msg
             | .timeout => .timeout))
    ∧ (∀ (ref : Nat) (ps : List (String × CometObject)),
        (∀ p ∈ ps, p.1 ≠ "this") →
        frameLookup (buildMethodFrame ref ps) "this"
          = some (.CometInstance ref)) := by
  refine ⟨?_, ?_, ?_, ?_, ?_, ?_⟩
  · intro fuel st lNode m args v st1 hl herr htype
    rw [Eval_binary]
    simp only [evalBinaryExpression, hl, herr, Bool.false_eq_true, if_false]
    simp only [if_true]
    unfold evalDotOperation
    cases v <;> simp_all [typeOf, ObjType]
  · intro fuel st lNode m args ref inst method st1 hl hheap hmeth hcount
    rw [Eval_binary]
    simp only [evalBinaryExpression, hl]
    rw [if_neg (by simp [isError, typeOf, ErrorType, ObjType])]
    simp only [if_true]
    unfold evalDotOperation
    simp only [hheap, hmeth]
    rw [if_pos hcount]
  · intro fuel st lNode m args ref inst method st1 hl hheap hmeth hcount
    rw [Eval_binary]
    simp only [evalBinaryExpression, hl]
    rw [if_neg (by simp [isError, typeOf, ErrorType, ObjType])]
    simp only [if_true]
    unfold evalDotOperation
    simp only [hheap, hmeth]
    rw [if_neg (by omega)]
  · intro eval ps st args
    exact evalMethodArgs_take eval ps st args
  · intro eval st m ref ps object method hheap hmeth
    unfold callOnObject
    simp only [hheap, hmeth]
  · intro ref ps h
    exact buildMethodFrame_this ref ps h

/-- C7 witness: with one instance of a struct declaring `m(p)`, calling
`a.m()` (too few arguments) is the parameter-count Error, and `1.m()` is
the none-object-type Error; the method frame of a call with parameter list
`[("p", 1)]` binds `this` to the instance. -/
theorem comet_C7_witness :
    Eval 3 methodFixture (.BinaryExpression ⟨Dot, "."⟩
        (.IdentifierExpression "a") (.CallExpression "m" []))
      = .ok (CreateError
          "Method \x27m\x27 on type \x27A\x27 expects at least 1 parameters, 0 were given")
          methodFixture
    ∧ Eval 3 methodFixture (.BinaryExpression ⟨Dot, "."⟩
        (.NumberLiteral 1) (.CallExpression "m" []))
      = .ok (CreateError "Cannot call method \x27m\x27 on none object type")
          methodFixture
    ∧ frameLookup (buildMethodFrame 0 [("p", .CometInt 1)]) "this"
      = some (.CometInstance 0) := by
  refine ⟨?_, ?_, ?_⟩
  · have h := comet_C7_method_call.2.1 2 methodFixture
      (.IdentifierExpression "a") "m" [] 0
      { strct := structA, fields := [] } methodM methodFixture
      (by rfl) (by rfl) (by rfl) (by norm_num [methodM])
    rw [h]
    rfl
  · have h := comet_C7_method_call.1 2 methodFixture (.NumberLiteral 1) "m" []
      (.CometInt 1) methodFixture (by rfl) (by rfl) (by decide)
    rw [h]
    rfl
  · exact comet_C7_method_call.2.2.2.2.2 0 [("p", .CometInt 1)]
      (by simp)

/-! ### Claim C5 -/

/-- C5 counterexample: the claim quantifies over every pair of integers,
but the Go loop counter is an `int64`.  At `L = 0`, `H = 2^63 - 1` the test
`i <= H` holds for every `int64` value and `i++` wraps, so the loop never
terminates: the iteration sequence is infinite (`goForIter` is `none`) and
the for statement never evaluates to Nop — it is below every fuel bound
instead of yielding `max(0, H-L+1)` iterations. -/
theorem comet_C5_counterexample :
    goForIter 0 MaxInt64 = none
    ∧ Eval 100 NewEvaluator divergentForStatement = .timeout
    ∧ (ResOf.timeout : Res) ≠ .ok NopInstance NewEvaluator := by
  refine ⟨rfl, rfl, ?_⟩
  simp

/-- C5 (amended): `goForIter` obeys the `int64` loop equation (test, run,
wrapping increment).  For bounds representable in `int64` with
`H < 2^63 - 1` the counter never wraps: the loop runs the body exactly
`max 0 (H-L+1)` times — shown on the iteration sequence and semantically by
the counting program, whose final `c` is that number — each iteration
binding both identifiers to the current Int in the loop's fresh child
scope, and the for statement pushes that child frame, clears both names
afterwards, pops the frame and evaluates to Nop.  When `L ≤ H` and
`H ≥ 2^63 - 1` the wrapped counter always passes the test: the iteration
sequence is infinite and the for statement stays below every fuel bound
(never Nop). -/
theorem comet_C5_amended :
    (∀ lo hi : Int,
        goForIter lo hi
          = (if lo ≤ hi
             then Option.map (fun l => lo :: l) (goForIter (wrap64 (lo + 1)) hi)
             else some []))
    ∧ (∀ L H : Int, MinInt64 ≤ L → H < MaxInt64 →
        goForIter L H = some (rangeIter L H)
        ∧ ((rangeIter L H).length : Int) = max 0 (H - L + 1))
    ∧ (∀ (st : EvalState) (k v : String) (i : Int),
        ScopeLookup (iterState k v i st).scope k = some (.CometInt i)
        ∧ ScopeLookup (iterState k v i st).scope v = some (.CometInt i))
    ∧ (∀ (fuel : Nat) (st : EvalState) (k v : String) (re b : Node)
          (lo hi : Int) (iters : List Int) (st1 : EvalState),
        Eval fuel st re = .ok (.CometRange lo hi) st1 →
        goForIter lo hi = some iters →
        Eval (fuel + 1) st (.ForStatement k v re b)
          = (match forLoopIter (Eval fuel) k v b
                { st1 with scope := ([] : Frame) :: st1.scope } iters with
             | .ok _ st3 => .ok NopInstance
                 { st3 with
                     scope := (ScopeClear (ScopeClear st3.scope k) v).tail }
             | .panicked msg => .panicked msg
             | .timeout => .timeout))
    ∧ (∀ L H : Int, L ≤ H → MaxInt64 ≤ H → goForIter L H = none)
    ∧ (∀ fuel : Nat, Eval fuel NewEvaluator divergentForStatement = .timeout)
    ∧ (∀ L H : Int, MinInt64 ≤ L → H < MaxInt64 →
        resultObj (Eval 12 NewEvaluator (counterProgram L H))
          = some (.CometInt (max 0 (H - L + 1)))) := by
  refine ⟨goForIter_eq, ?_, ?_, ?_, goForIter_diverges, ?_, ?_⟩
  · intro L H hL hH
    exact ⟨goForIter_in_range L H hL hH, rangeIter_length L H⟩
  · intro st k v i
    unfold iterState
    cases hc : st.scope with
    | nil =>
      constructor
      · by_cases hvk : v = k
        · subst hvk
          simp [ScopeDeclare, ScopeLookup, frameLookup_frameUpdate_self]
        · simp only [ScopeDeclare, ScopeLookup]
          rw [frameLookup_frameUpdate_other _ v k _ hvk]
          simp [frameLookup]
      · simp [ScopeDeclare, ScopeLookup, frameLookup_frameUpdate_self]
    | cons f rest =>
      constructor
      · by_cases hvk : v = k
        · subst hvk
          simp [ScopeDeclare, ScopeLookup, frameLookup_frameUpdate_self]
        · simp only [ScopeDeclare, ScopeLookup]
          rw [frameLookup_frameUpdate_other _ v k _ hvk,
            frameLookup_frameUpdate_self]
      · simp [ScopeDeclare, ScopeLookup, frameLookup_frameUpdate_self]
  · intro fuel st k v re b lo hi iters st1 h hiters
    rw [Eval_forStmt]
    unfold evalForStatement
    rw [h]
    dsimp only []
    rw [hiters]
    dsimp only []
    cases hit : forLoopIter (Eval fuel) k v b
        { st1 with scope := ([] : Frame) :: st1.scope } iters with
    | ok u st3 => simp [unwrap, NopInstance]
    | panicked msg => rfl
    | timeout => rfl
  · intro fuel
    cases fuel with
    | zero => rfl
    | succ f =>
      cases f with
      | zero => rfl
      | succ f2 =>
        cases f2 with
        | zero => rfl
        | succ f3 =>
          have hrange : Eval (f3 + 2) NewEvaluator
              (.BinaryExpression ⟨DotDot, ".."⟩ (.NumberLiteral 0)
                (.NumberLiteral MaxInt64))
              = .ok (.CometRange 0 MaxInt64) NewEvaluator := by
            show Eval (f3 + 1 + 1) _ _ = _
            rw [Eval_binary]
            simp only [evalBinaryExpression, Eval_number]
            simp +decide [isError, typeOf, ErrorType, IntType, BoolType,
              StrType, binaryDispatch, applyOp]
          show Eval (f3 + 2 + 1) _ _ = _
          unfold divergentForStatement
          rw [Eval_forStmt]
          unfold evalForStatement
          rw [hrange]
          dsimp only []
          rw [goForIter_diverges 0 MaxInt64 (by norm_num [MaxInt64])
            (le_refl MaxInt64)]
  · intro L H hL hH
    rw [counterProgram_eval L H hL hH]
    rw [show ((rangeIter L H).length : Int) = max 0 (H - L + 1) from
      rangeIter_length L H]
    rfl

/-- C5 witness: `for k in 1..3` with an empty body runs three iterations
and returns to the untouched evaluator state with result Nop; the counting
program over `1..3` ends with `c = 3`; iteration state 2 binds both
identifiers to Int 2. -/
theorem comet_C5_witness :
    Eval 6 NewEvaluator (.ForStatement "k" "v"
        (.BinaryExpression ⟨DotDot, ".."⟩ (.NumberLiteral 1) (.NumberLiteral 3))
        (.BlockStatement []))
      = .ok NopInstance NewEvaluator
    ∧ resultObj (Eval 12 NewEvaluator (counterProgram 1 3))
      = some (.CometInt 3)
    ∧ ScopeLookup (iterState "k" "v" 2 NewEvaluator).scope "k"
      = some (.CometInt 2) := by
  refine ⟨?_, ?_, ?_⟩
  · have h := comet_C5_amended.2.2.2.1 5 NewEvaluator "k" "v"
      (.BinaryExpression ⟨DotDot, ".."⟩ (.NumberLiteral 1) (.NumberLiteral 3))
      (.BlockStatement []) 1 3 (rangeIter 1 3) NewEvaluator (by rfl) (by rfl)
    rw [h]
    rfl
  · have h := comet_C5_amended.2.2.2.2.2.2 1 3 (by norm_num [MinInt64])
      (by norm_num [MaxInt64])
    rw [h]
    norm_num
  · exact (comet_C5_amended.2.2.1 NewEvaluator "k" "v" 2).1

end Comet
